import Mathlib

/-!
Shallow embedding of the difficulty/performance core of `rosu-ppplus-csr`
(osu!standard pp+ variant). `f64` values are modelled as real numbers; the
one place the code relies on IEEE infinity (`last_two_strain_time`) is
modelled with `Option ℝ` where `none` stands for `f64::INFINITY`.
-/

namespace Rosu

noncomputable section

/-! ## Math utilities, from `src/util/pplus.rs` -/

/-- Real midpoint, modelling `f64::midpoint(a, b)`. -/
def fmidpoint (a b : ℝ) : ℝ := (a + b) / 2

/-- From `src/util/pplus.rs:1`: `a * 1.25 > b && a / 1.25 < b`. -/
def is_roughly_equal (a b : ℝ) : Prop := a * 1.25 > b ∧ a / 1.25 < b

instance (a b : ℝ) : Decidable (is_roughly_equal a b) := by
  unfold is_roughly_equal; infer_instance

/-- From `src/util/pplus.rs:5`: `a + 5.0 > ratio * b && a - 5.0 < ratio * b`. -/
def is_ratio_equal (ratio a b : ℝ) : Prop := a + 5 > ratio * b ∧ a - 5 < ratio * b

instance (ratio a b : ℝ) : Decidable (is_ratio_equal ratio a b) := by
  unfold is_ratio_equal; infer_instance

/-- From `src/util/pplus.rs:9`. -/
def is_ratio_equal_greater (ratio a b : ℝ) : Prop := a + 5 > ratio * b

instance (ratio a b : ℝ) : Decidable (is_ratio_equal_greater ratio a b) := by
  unfold is_ratio_equal_greater; infer_instance

/-- From `src/util/pplus.rs:13`. -/
def is_ratio_equal_less (ratio a b : ℝ) : Prop := a - 5 < ratio * b

instance (ratio a b : ℝ) : Decidable (is_ratio_equal_less ratio a b) := by
  unfold is_ratio_equal_less; infer_instance

/-- From `src/util/pplus.rs:17`. NaN is not representable in the real-number
model, so only the `None` case can hold. -/
def is_null_or_nan (x : Option ℝ) : Bool := x.isNone

/-- From `src/util/pplus.rs:35`: smooth 0-to-1 transition starting at
`transition_start`, reaching 1 after `transition_interval`. -/
noncomputable def transition_to_true (value transition_start transition_interval : ℝ) : ℝ :=
  if value ≤ transition_start then 0
  else if transition_start + transition_interval ≤ value then 1
  else fmidpoint (-Real.cos ((value - transition_start) * Real.pi / transition_interval)) 1

/-- From `src/util/pplus.rs:56`: smooth 1-to-0 transition starting at
`transition_start`. -/
noncomputable def transition_to_false (value transition_start transition_interval : ℝ) : ℝ :=
  if value ≤ transition_start then 1
  else if transition_start + transition_interval ≤ value then 0
  else fmidpoint (Real.cos ((value - transition_start) * Real.pi / transition_interval)) 1

/-! ## Geometry and hit-object model, from `src/osu/object.rs` interfaces
consumed by `src/osu/difficulty/object.rs` -/

/-- Planar position, modelling `rosu_map::util::Pos` over the reals. -/
structure Pos where
  x : ℝ
  y : ℝ

def Pos.sub (p q : Pos) : Pos := ⟨p.x - q.x, p.y - q.y⟩

def Pos.scale (p : Pos) (f : ℝ) : Pos := ⟨p.x * f, p.y * f⟩

def Pos.dot (p q : Pos) : ℝ := p.x * q.x + p.y * q.y

def Pos.length (p : Pos) : ℝ := Real.sqrt (p.x ^ 2 + p.y ^ 2)

/-- Kind of a hit object; sliders carry the data read by the difficulty
object pass (`lazy_travel_dist`, `lazy_end_pos` filled by the lazy-cursor
pass, `end_time`), spinners their end time. -/
inductive OsuObjectKind where
  | circle
  | slider (end_time lazy_travel_dist : ℝ) (lazy_end_pos : Pos)
  | spinner (end_time : ℝ)

/-- A hit object as consumed by the difficulty pass. `pos` is the stacked
position (`stacked_pos()` in the source; stacking is applied upstream). -/
structure OsuObject where
  pos : Pos
  start_time : ℝ
  kind : OsuObjectKind

def OsuObject.stacked_pos (h : OsuObject) : Pos := h.pos

def OsuObject.end_time (h : OsuObject) : ℝ :=
  match h.kind with
  | .circle => h.start_time
  | .slider e _ _ => e
  | .spinner e => e

def OsuObject.is_circle (h : OsuObject) : Bool :=
  match h.kind with
  | .circle => true
  | _ => false

def OsuObject.is_slider (h : OsuObject) : Bool :=
  match h.kind with
  | .slider _ _ _ => true
  | _ => false

def OsuObject.is_spinner (h : OsuObject) : Bool :=
  match h.kind with
  | .spinner _ => true
  | _ => false

/-- From `src/osu/difficulty/object.rs:328`: sliders report their lazy end
position, every other object its stacked position. -/
def get_end_cursor_pos (hit_object : OsuObject) : Pos :=
  match hit_object.kind with
  | .slider _ _ lazy_end_pos => lazy_end_pos
  | _ => hit_object.stacked_pos

/-- Two-argument arctangent, modelling `f64::atan2` (and `atan2(0,0) = 0`). -/
def atan2 (y x : ℝ) : ℝ :=
  if 0 < x then Real.arctan (y / x)
  else if x < 0 then
    (if 0 ≤ y then Real.arctan (y / x) + Real.pi else Real.arctan (y / x) - Real.pi)
  else if 0 < y then Real.pi / 2
  else if y < 0 then -(Real.pi / 2)
  else 0

/-! ## Difficulty object, from `src/osu/difficulty/object.rs` -/

/-- Modelled from the spec: `FloatExt::lerp` lives in `src/util/float_ext.rs`
which is not among the provided sources; §3 of the spec uses the standard
`lerp(a, b, t) = a + (b − a)·t`. -/
def lerp (a b t : ℝ) : ℝ := a + (b - a) * t

/-- From `src/osu/difficulty/object.rs:70`. -/
def rescale_low_strain_time
    (strain_time min_strain_time target_min_strain_time low_strain_time_threshold : ℝ) : ℝ :=
  if strain_time < low_strain_time_threshold then
    lerp target_min_strain_time low_strain_time_threshold
      ((strain_time - min_strain_time) / min_strain_time)
  else strain_time

/-- The enriched per-object kinematic record (`OsuDifficultyObject`).
`last_two_strain_time = none` models the `f64::INFINITY` stored when no
last-last object exists (`src/osu/difficulty/object.rs:108`). -/
structure OsuDifficultyObject where
  idx : ℕ
  base : OsuObject
  delta_time : ℝ
  start_time : ℝ
  end_time : ℝ
  gap_time : ℝ
  strain_time : ℝ
  last_two_strain_time : Option ℝ
  raw_jump_dist : ℝ
  jump_dist : ℝ
  base_flow : ℝ
  flow : ℝ
  travel_dist : ℝ
  travel_time : ℝ
  angle : Option ℝ
  angle_leniency : ℝ
  preempt : ℝ
  stream_bpm : ℝ

def NORMALIZED_RADIUS : ℝ := 52

def MIN_DELTA_TIME : ℝ := 25

/-- Result of the `set_distances` pass (`src/osu/difficulty/object.rs:241`). -/
structure Distances where
  travel_dist : ℝ
  travel_time : ℝ
  raw_jump_dist : ℝ
  jump_dist : ℝ
  angle : Option ℝ

/-- From `src/osu/difficulty/object.rs:241`. `strain_time_now` is the value
the mutable `self.strain_time` holds when `set_distances` is invoked (still
`0.0` inside `run`, see `run` below); `start_time` is the already
clock-rate-adjusted start time set at `object.rs:95`; `factor` is
`ScalingFactor::factor`. -/
def set_distances (curr : OsuObject) (strain_time_now start_time : ℝ)
    (last_object : OsuObject) (last_last_object : Option OsuObject)
    (clock_rate factor : ℝ) : Distances :=
  let travel_dist :=
    match last_object.kind with
    | .slider _ lazy_travel_dist _ => lazy_travel_dist * factor
    | _ => 0
  let travel_time :=
    match last_object.kind with
    | .circle => strain_time_now
    | _ => max ((start_time - last_object.end_time) / clock_rate) MIN_DELTA_TIME
  let last_cursor_pos := get_end_cursor_pos last_object
  let raw_jump_dist :=
    if curr.is_spinner then 0
    else ((curr.stacked_pos).sub last_cursor_pos).length
  let jump_dist :=
    (((curr.stacked_pos).scale factor).sub (last_cursor_pos.scale factor)).length
  let angle :=
    match last_last_object with
    | some last_last =>
      let last_last_cursor_pos := get_end_cursor_pos last_last
      let v1 := last_last_cursor_pos.sub last_object.stacked_pos
      let v2 := (curr.stacked_pos).sub last_cursor_pos
      some |atan2 (v1.x * v2.y - v1.y * v2.x) (v1.dot v2)|
    | none => none
  ⟨travel_dist, travel_time, raw_jump_dist, jump_dist, angle⟩

/-- From `src/osu/difficulty/object.rs:168`. -/
def calculate_extended_distance_flow (stream_bpm jump_dist : ℝ) : ℝ :=
  let distance_offset := (Real.tanh ((stream_bpm - 140) / 20) * 1.75 + 2.75) * NORMALIZED_RADIUS
  transition_to_false jump_dist distance_offset distance_offset

/-- From `src/osu/difficulty/object.rs:173`. -/
def calculate_irregular_flow (strain_time stream_bpm jump_dist : ℝ)
    (last_diff_object : OsuDifficultyObject)
    (last_last_diff_object : Option OsuDifficultyObject) : ℝ :=
  let irregular_flow := calculate_extended_distance_flow stream_bpm jump_dist
  let irregular_flow :=
    if is_roughly_equal strain_time last_diff_object.strain_time then
      irregular_flow * last_diff_object.base_flow
    else 0
  match last_last_diff_object with
  | some last_last =>
    if is_roughly_equal strain_time last_last.strain_time then
      irregular_flow * last_last.base_flow
    else 0
  | none => irregular_flow

/-- From `src/osu/difficulty/object.rs:193`. -/
def calculate_speed_flow (stream_bpm : ℝ) : ℝ := transition_to_true stream_bpm 90 30

/-- From `src/osu/difficulty/object.rs:198`. -/
def calculate_distance_flow (stream_bpm jump_dist angle_scaling_factor : ℝ) : ℝ :=
  let distance_offset := (Real.tanh ((stream_bpm - 140) / 20) + 2) * NORMALIZED_RADIUS
  transition_to_false jump_dist (distance_offset * angle_scaling_factor) distance_offset

/-- From `src/osu/difficulty/object.rs:203`. NaN is not representable in the
real model, so the `is_null_or_nan` guard reduces to the `none` case. -/
def calculate_angle_scaling_factor (angle : Option ℝ)
    (last_diff_object : OsuDifficultyObject) : ℝ :=
  match angle with
  | none => 0.5
  | some a =>
    let angle_scaling_factor := (-Real.sin (Real.cos a * Real.pi / 2) + 3) / 4
    angle_scaling_factor + (1 - angle_scaling_factor) * last_diff_object.angle_leniency

/-- Flow fields produced by `set_flow_values`. -/
structure FlowValues where
  base_flow : ℝ
  flow : ℝ
  angle_leniency : ℝ

/-- From `src/osu/difficulty/object.rs:213`. `base_flow` starts from its
initial value `0.0` and is overwritten by each satisfied guard in turn. -/
def set_flow_values (strain_time stream_bpm jump_dist : ℝ) (angle : Option ℝ)
    (last_diff_object last_last_diff_object : Option OsuDifficultyObject) : FlowValues :=
  match last_diff_object with
  | some last =>
    let bf1 :=
      if is_ratio_equal_less 0.667 strain_time last.strain_time then
        calculate_speed_flow stream_bpm * calculate_distance_flow stream_bpm jump_dist 1
      else 0
    let bf2 :=
      if is_roughly_equal strain_time last.strain_time then
        calculate_speed_flow stream_bpm *
          calculate_distance_flow stream_bpm jump_dist
            (calculate_angle_scaling_factor angle last)
      else bf1
    let irregular_flow :=
      calculate_irregular_flow strain_time stream_bpm jump_dist last last_last_diff_object
    ⟨bf2, max bf2 irregular_flow, (1 - bf2) * irregular_flow⟩
  | none =>
    let bf := calculate_speed_flow stream_bpm * calculate_distance_flow stream_bpm jump_dist 1
    ⟨bf, bf, 0⟩

/-- From `src/osu/difficulty/object.rs:84`: the single forward `run` pass
populating one difficulty object from its base object, the previous (and
optional previous-previous) hit objects and difficulty objects. -/
def run (curr : OsuObject) (idx : ℕ) (last_object : OsuObject)
    (last_last_object : Option OsuObject)
    (last_diff_object last_last_diff_object : Option OsuDifficultyObject)
    (clock_rate time_preempt factor : ℝ) : OsuDifficultyObject :=
  let delta_time := (curr.start_time - last_object.start_time) / clock_rate
  let start_time := curr.start_time / clock_rate
  let end_time := curr.end_time / clock_rate
  let d := set_distances curr 0 start_time last_object last_last_object clock_rate factor
  let preempt := time_preempt / clock_rate
  let strain_time0 := max delta_time MIN_DELTA_TIME
  let stream_bpm := 15000 / strain_time0
  let last_two0 : Option ℝ :=
    match last_last_object with
    | some last_last =>
      some (max ((curr.start_time - last_last.start_time) / clock_rate) (MIN_DELTA_TIME * 2))
    | none => none
  let gap_time0 :=
    if last_object.is_circle then strain_time0
    else max ((curr.start_time - last_object.end_time) / clock_rate) MIN_DELTA_TIME
  let strain_time := rescale_low_strain_time strain_time0 25 30 50
  let last_two := last_two0.map (fun v => rescale_low_strain_time v 50 60 100)
  let gap_time := rescale_low_strain_time gap_time0 25 30 50
  let fv := set_flow_values strain_time stream_bpm d.jump_dist d.angle
    last_diff_object last_last_diff_object
  { idx := idx
    base := curr
    delta_time := delta_time
    start_time := start_time
    end_time := end_time
    gap_time := gap_time
    strain_time := strain_time
    last_two_strain_time := last_two
    raw_jump_dist := d.raw_jump_dist
    jump_dist := d.jump_dist
    base_flow := fv.base_flow
    flow := fv.flow
    travel_dist := d.travel_dist
    travel_time := d.travel_time
    angle := d.angle
    angle_leniency := fv.angle_leniency
    preempt := preempt
    stream_bpm := stream_bpm }

/-! ## Strain framework pieces and skills,
from `src/osu/difficulty/skills/*.rs` -/

/-- Modelled from the spec: `strain_decay` lives in the generic skill module
`src/any/difficulty/skills.rs`, not among the provided sources; §4.4 defines
`strain_decay(ms, base) = base^(ms/1000)`. -/
def strain_decay (ms base : ℝ) : ℝ := base ^ (ms / 1000)

/-- Modelled from the spec: the per-skill `DECAY_WEIGHT = 0.9` default of the
generic strain trait (§4.4), whose source module is not provided. -/
def DECAY_WEIGHT : ℝ := 0.9

/-- The running weighted sum of `difficulty_value_old`
(`src/osu/difficulty/skills/strain.rs:73`): each peak is added with the
current weight, the weight then decays. -/
def weighted_sum (decay_weight : ℝ) : List ℝ → ℝ → ℝ
  | [], _ => 0
  | p :: rest, weight => p * weight + weighted_sum decay_weight rest (weight * decay_weight)

/-- From `src/osu/difficulty/skills/strain.rs:52`: drop non-positive peaks,
sort descending, weighted sum. Used by Aim/Speed/Stamina in this variant. -/
def difficulty_value_old (current_strain_peaks : List ℝ) (decay_weight : ℝ) : ℝ :=
  let peaks := current_strain_peaks.filter (fun p => 0 < p)
  let peaks := peaks.insertionSort (· ≥ ·)
  weighted_sum decay_weight peaks 1

/-- Modelled from the spec: per §4.4 the generic strain skill finishes by
pushing the pending `current_section_peak` (initially `0`); a skill that
processed no objects therefore reports the single peak `0`. -/
def strain_skill_empty_peaks : List ℝ := [0]

def Speed.SKILL_MULTIPLIER : ℝ := 2600

def Speed.STRAIN_DECAY_BASE : ℝ := 0.1

def Stamina.SKILL_MULTIPLIER : ℝ := 2600 * 0.3

def Stamina.STRAIN_DECAY_BASE : ℝ := 0.45

/-- From `src/osu/difficulty/skills/speed.rs:70`. For
`last_two_strain_time = ∞` (`none`) both quotient groups vanish under IEEE
arithmetic, leaving only the additive `0.005` stream constant. -/
def SpeedEvaluator.evaluate_diff_of (curr : OsuDifficultyObject) : ℝ :=
  match curr.last_two_strain_time with
  | some v =>
    let ms := v / 2
    let tap_value := 30 / (ms - 20) ^ (2 : ℝ) + 2 / ms
    let stream_value := 12.5 / (ms - 20) ^ (2 : ℝ) + 0.25 / ms + 0.005
    (1 - curr.flow) * tap_value + curr.flow * stream_value
  | none => curr.flow * 0.005

/-- From `src/osu/difficulty/skills/stamina.rs:72`. For
`last_two_strain_time = ∞` (`none`) both terms vanish under IEEE
arithmetic. -/
def StaminaEvaluator.evaluate_diff_of (curr : OsuDifficultyObject) : ℝ :=
  match curr.last_two_strain_time with
  | some v =>
    let ms := v / 2
    let tap_value := 2 / (ms - 20)
    let stream_value := 1 / (ms - 20)
    (1 - curr.flow) * tap_value + curr.flow * stream_value
  | none => 0

def Aim.SKILL_MULTIPLIER : ℝ := 1059

def Aim.STRAIN_DECAY_BASE : ℝ := 0.15

/-- The accumulator state of one Aim pass: the running strain and the
append-only list of strains recorded at slider objects
(`src/osu/difficulty/skills/aim.rs:28`). -/
structure AimPassState where
  current_strain : ℝ
  slider_strains : List ℝ

/-- From `src/osu/difficulty/skills/aim.rs:56` (`strain_value_at`): decay the
running strain over `delta_time`, add the evaluated per-object difficulty
times the skill multiplier, and record the strain when the object is a
slider. The evaluator output enters as the `eval_value` argument. -/
def Aim.strain_value_at (s : AimPassState) (is_slider : Bool)
    (delta_time eval_value : ℝ) : AimPassState :=
  let current_strain :=
    s.current_strain * strain_decay delta_time Aim.STRAIN_DECAY_BASE
      + eval_value * Aim.SKILL_MULTIPLIER
  ⟨current_strain,
    if is_slider then s.slider_strains ++ [current_strain] else s.slider_strains⟩

/-- One Aim forward pass over the difficulty objects, each given as
`(is_slider of the base object, delta_time, evaluator output)`. -/
def Aim.process_objects (objects : List (Bool × ℝ × ℝ)) : AimPassState :=
  objects.foldl (fun s o => Aim.strain_value_at s o.1 o.2.1 o.2.2) ⟨0, []⟩

/-- From `src/osu/difficulty/skills/aim.rs:72`: soft count of difficult
sliders from the recorded slider strains. -/
def Aim.get_difficult_sliders (s : AimPassState) : ℝ :=
  if s.slider_strains = [] then 0
  else
    let max_slider_strain := s.slider_strains.foldl max 0
    if max_slider_strain = 0 then 0
    else
      (s.slider_strains.map
        (fun strain => 1 / (1 + Real.exp (-(strain / max_slider_strain * 12 - 6))))).sum

/-- Modelled from the spec: `PLAYFIELD_BASE_SIZE` is declared in
`src/osu/mod.rs`, which is not among the provided sources; §4.5's location
weight places the playfield center at `(256, 192)`, so the base size is
`(512, 384)`. -/
def PLAYFIELD_BASE_SIZE : Pos := ⟨512, 384⟩

/-- From `src/osu/difficulty/skills/aim.rs:463`: the flashlight factor of the
aim reading multiplier. -/
def calc_flashlight_multiplier (flashlight_enabled : Bool)
    (raw_jump_distance radius : ℝ) : ℝ :=
  if flashlight_enabled then
    1 + transition_to_true raw_jump_distance (PLAYFIELD_BASE_SIZE.y / 4) radius * 0.3
  else 1

/-- The flashlight factor as §4.5 of the spec words it, with the transition
starting at `48`; compared against `calc_flashlight_multiplier` from the
source. -/
def spec_flashlight_multiplier (raw_jump_distance radius : ℝ) : ℝ :=
  1 + transition_to_true raw_jump_distance 48 radius * 0.3

/-! ## Rhythm complexity, from `src/osu/difficulty/skills/rhythm_complexity.rs` -/

/-- The mutable state of the rhythm-complexity skill
(`src/osu/difficulty/skills/rhythm_complexity.rs:20`; the strain-trait
bookkeeping fields are unused by its difficulty value and omitted). -/
structure RhythmComplexity where
  note_index : ℤ
  difficulty_total : ℝ
  difficulty_total_slider_acc : ℝ
  hit_circle_count : ℤ
  accuracy_object_count : ℤ
  is_previous_offbeat : Bool
  prev_doubles : List ℤ
  is_slider_acc : Bool
  flow_total : ℝ
  jump_total : ℝ

/-- From `src/osu/difficulty/skills/rhythm_complexity.rs:39`. -/
def RhythmComplexity.new (is_slider_acc : Bool) : RhythmComplexity :=
  ⟨0, 0, 0, 0, 0, false, [], is_slider_acc, 0, 0⟩

/-- From `src/osu/difficulty/skills/rhythm_complexity.rs:156`. -/
def calc_difficulty_value_for (difficulty : ℝ) (object_count : ℤ) : ℝ :=
  if object_count = 0 then 1
  else
    let length_requirement := Real.tanh ((object_count : ℝ) / 50)
    1 + difficulty / (object_count : ℝ) * length_requirement

/-- From `src/osu/difficulty/skills/rhythm_complexity.rs:260`. -/
def calc_slider_end_flow (curr : OsuDifficultyObject) : ℝ :=
  let stream_bpm := 15000 / curr.gap_time
  let is_flow_speed := transition_to_true stream_bpm 120 30
  let distance_offset := (Real.tanh ((stream_bpm - 140) / 20) + 2) * NORMALIZED_RADIUS
  let is_flow_distance := transition_to_false curr.jump_dist distance_offset NORMALIZED_RADIUS
  is_flow_speed * is_flow_distance

/-- From `src/osu/difficulty/skills/rhythm_complexity.rs:242`: bonus and
state update for a slider-to-circle transition. -/
def RhythmComplexity.calc_slider_to_circle_rhythm_bonus (s : RhythmComplexity)
    (curr : OsuDifficultyObject) : ℝ × RhythmComplexity :=
  let slider_ms := curr.strain_time - curr.gap_time
  if is_ratio_equal 0.5 curr.gap_time slider_ms ∨
      is_ratio_equal 0.25 curr.gap_time slider_ms then
    let end_flow := calc_slider_end_flow curr
    (0.3 * end_flow, { s with is_previous_offbeat := decide (end_flow > 0.8) })
  else
    (0, { s with is_previous_offbeat := false })

/-- From `src/osu/difficulty/skills/rhythm_complexity.rs:193`: bonus and
state update for a circle-to-circle transition. The doubles branch folds
over the last (at most) ten recorded doubles; the final offbeat flip reads
the incoming `is_previous_offbeat`. -/
def RhythmComplexity.calc_circle_to_circle_rhythm_bonus (s : RhythmComplexity)
    (curr prev : OsuDifficultyObject) : ℝ × RhythmComplexity :=
  let step : ℝ × RhythmComplexity :=
    if s.is_previous_offbeat ∧ is_ratio_equal_greater 1.5 curr.gap_time prev.gap_time then
      let dropped := s.prev_doubles.drop (s.prev_doubles.length - 10)
      let rhythm_bonus := dropped.foldl
        (fun b prev_double =>
          if prev_double > 0 then
            b * (1 - 0.5 * (0.9 : ℝ) ^ ((s.note_index - prev_double : ℤ) : ℝ))
          else 5)
        5
      (rhythm_bonus, { s with prev_doubles := s.prev_doubles ++ [s.note_index] })
    else if is_ratio_equal 0.667 curr.gap_time prev.gap_time then
      (4 + 8 * curr.flow,
        if curr.flow > 0.8 then { s with prev_doubles := s.prev_doubles ++ [-1] } else s)
    else if is_ratio_equal 0.333 curr.gap_time prev.gap_time then
      (0.4 + 0.8 * curr.flow, s)
    else if is_ratio_equal 0.5 curr.gap_time prev.gap_time ∨
        is_ratio_equal 0.25 curr.gap_time prev.gap_time then
      (0.1 + 0.2 * curr.flow, s)
    else (0, s)
  let offbeat : Bool :=
    if is_ratio_equal 0.667 curr.gap_time prev.gap_time ∧ curr.flow > 0.8 then true
    else if is_ratio_equal 1.0 curr.gap_time prev.gap_time ∧ curr.flow > 0.8 then
      !s.is_previous_offbeat
    else false
  (step.1, { step.2 with is_previous_offbeat := offbeat })

/-- From `src/osu/difficulty/skills/rhythm_complexity.rs:165`. `prev` is
`curr.previous(0, objects)`, the difficulty object at index `idx − 1`. -/
def RhythmComplexity.calc_rhythm_bonus (s : RhythmComplexity)
    (curr : OsuDifficultyObject) (prev : Option OsuDifficultyObject) : ℝ × RhythmComplexity :=
  let rhythm_bonus := 0.05 * curr.flow
  if curr.idx = 0 then (rhythm_bonus, s)
  else
    match prev with
    | some prev =>
      match prev.base.kind with
      | .circle =>
        let r := s.calc_circle_to_circle_rhythm_bonus curr prev
        (rhythm_bonus + r.1, r.2)
      | .slider _ _ _ =>
        let r := s.calc_slider_to_circle_rhythm_bonus curr
        (rhythm_bonus + r.1, r.2)
      | .spinner _ => (rhythm_bonus, { s with is_previous_offbeat := false })
    | none => (rhythm_bonus, s)

/-- From `src/osu/difficulty/skills/rhythm_complexity.rs:63`
(`StrainSkill::process` for `RhythmComplexity`). -/
def RhythmComplexity.process (s : RhythmComplexity) (curr : OsuDifficultyObject)
    (prev : Option OsuDifficultyObject) : RhythmComplexity :=
  let s := { s with
    flow_total := s.flow_total + curr.flow
    jump_total := s.jump_total + curr.jump_dist }
  let s :=
    if curr.base.is_circle then
      let r := s.calc_rhythm_bonus curr prev
      { r.2 with
        difficulty_total := r.2.difficulty_total + r.1
        difficulty_total_slider_acc := r.2.difficulty_total_slider_acc + r.1
        hit_circle_count := r.2.hit_circle_count + 1
        accuracy_object_count := r.2.accuracy_object_count + 1 }
    else if s.is_slider_acc && curr.base.is_slider then
      let r := s.calc_rhythm_bonus curr prev
      { r.2 with
        difficulty_total_slider_acc := r.2.difficulty_total_slider_acc + r.1
        accuracy_object_count := r.2.accuracy_object_count + 1 }
    else { s with is_previous_offbeat := false }
  { s with note_index := s.note_index + 1 }

/-- Modelled from the spec: the skills are fed the difficulty objects in a
single forward pass (§3 lifecycle), so `curr.previous(0, objects)` is the
element processed immediately before `curr`. -/
def RhythmComplexity.process_list (s : RhythmComplexity)
    (prev : Option OsuDifficultyObject) :
    List OsuDifficultyObject → RhythmComplexity
  | [] => s
  | curr :: rest => (s.process curr prev).process_list (some curr) rest

/-- The state invariant maintained by the rhythm-complexity pass: the two
difficulty totals and the two object counts are non-negative, the note
index is non-negative, and every recorded double index lies strictly below
the current note index. -/
def RhythmComplexity.Inv (s : RhythmComplexity) : Prop :=
  0 ≤ s.difficulty_total ∧ 0 ≤ s.difficulty_total_slider_acc ∧
  0 ≤ s.hit_circle_count ∧ 0 ≤ s.accuracy_object_count ∧
  0 ≤ s.note_index ∧ ∀ d ∈ s.prev_doubles, d < s.note_index

/-- From `src/osu/difficulty/skills/rhythm_complexity.rs:129`
(`cloned_difficulty_value`). -/
def RhythmComplexity.cloned_difficulty_value (s : RhythmComplexity) : ℝ :=
  max (calc_difficulty_value_for s.difficulty_total s.hit_circle_count)
    (calc_difficulty_value_for s.difficulty_total_slider_acc s.accuracy_object_count)

/-! ## Difficulty aggregation, from `src/osu/difficulty/mod.rs`, and
attributes from `src/osu/attributes.rs` -/

/-- The recognized mod flags (spec §6; parsed upstream of the core). -/
structure GameMods where
  hd : Bool
  fl : Bool
  nf : Bool
  so : Bool
  rx : Bool
  ap : Bool
  td : Bool

/-- Difficulty attributes (`src/osu/attributes.rs:5`), over the reals. -/
structure OsuDifficultyAttributes where
  aim : ℝ
  aim_difficult_slider_count : ℝ
  jump : ℝ
  flow : ℝ
  precision : ℝ
  speed : ℝ
  stamina : ℝ
  accuracy : ℝ
  aim_difficult_strain_count : ℝ
  jump_aim_difficult_strain_count : ℝ
  flow_aim_difficult_strain_count : ℝ
  speed_difficult_strain_count : ℝ
  stamina_difficult_strain_count : ℝ
  great_hit_window : ℝ
  n_circles : ℕ
  n_sliders : ℕ
  n_spinners : ℕ
  stars : ℝ
  max_combo : ℕ

/-- From `src/osu/attributes.rs:70`. -/
def OsuDifficultyAttributes.n_objects (a : OsuDifficultyAttributes) : ℕ :=
  a.n_circles + a.n_sliders + a.n_spinners

/-- Modelled from the spec: `osu_great_hit_window_to_od` lives in the beatmap
module outside the provided sources; it inverts `hit_window = 79.5 − 6·od`
(the formula used at `src/osu/performance/calculator.rs:242`). -/
def OsuDifficultyAttributes.od (a : OsuDifficultyAttributes) : ℝ :=
  (79.5 - a.great_hit_window) / 6

def DIFFICULTY_MULTIPLIER : ℝ := 0.0675

/-- From `src/osu/difficulty/mod.rs:124` (`DifficultyValues::eval`): turn the
per-skill difficulty values into ratings, apply the TD/RX/AP transforms and
the star rating. The skill-derived scalars (seven difficulty values, five
top-weighted strain counts, difficult-slider count) enter as arguments. -/
def DifficultyValues.eval (attrs : OsuDifficultyAttributes) (mods : GameMods)
    (aim_difficulty_value raw_aim_difficulty_value jump_aim_difficulty_value
      flow_aim_difficulty_value speed_difficulty_value stamina_difficulty_value
      rhythm_difficulty_value : ℝ)
    (aim_dsc jump_dsc flow_dsc speed_dsc stamina_dsc difficult_sliders : ℝ) :
    OsuDifficultyAttributes :=
  let aim_rating := Real.sqrt aim_difficulty_value * DIFFICULTY_MULTIPLIER
  let jump_aim_rating := Real.sqrt jump_aim_difficulty_value * DIFFICULTY_MULTIPLIER
  let flow_aim_rating := Real.sqrt flow_aim_difficulty_value * DIFFICULTY_MULTIPLIER
  let precision_rating :=
    Real.sqrt (max (aim_difficulty_value - raw_aim_difficulty_value) 0) * DIFFICULTY_MULTIPLIER
  let speed_rating := Real.sqrt speed_difficulty_value * DIFFICULTY_MULTIPLIER
  let stamina_rating := Real.sqrt stamina_difficulty_value * DIFFICULTY_MULTIPLIER
  let accuracy_rating := Real.sqrt rhythm_difficulty_value
  let aim_rating := if mods.td then aim_rating ^ (0.8 : ℝ) else aim_rating
  let aim_rating2 := if mods.rx then aim_rating * 0.9 else if mods.ap then 0 else aim_rating
  let speed_rating := if mods.rx then 0 else if mods.ap then speed_rating * 0.5 else speed_rating
  let star_rating :=
    (aim_rating2 ^ (3 : ℝ) + (max speed_rating stamina_rating) ^ (3 : ℝ)) ^ ((1 : ℝ) / 3) * 1.6
  { attrs with
    aim := aim_rating2
    aim_difficult_slider_count := difficult_sliders
    jump := jump_aim_rating
    flow := flow_aim_rating
    precision := precision_rating
    speed := speed_rating
    stamina := stamina_rating
    accuracy := accuracy_rating
    aim_difficult_strain_count := aim_dsc
    jump_aim_difficult_strain_count := jump_dsc
    flow_aim_difficult_strain_count := flow_dsc
    speed_difficult_strain_count := speed_dsc
    stamina_difficult_strain_count := stamina_dsc
    stars := star_rating }

/-! ## Performance calculator, from `src/osu/performance/calculator.rs` -/

/-- Score state consumed by the performance calculator. -/
structure OsuScoreState where
  max_combo : ℕ
  n300 : ℕ
  n100 : ℕ
  n50 : ℕ
  misses : ℕ

/-- Modelled from the spec: the derived `total_hits` of a score state (§3)
is the number of judged results. -/
def OsuScoreState.total_hits (s : OsuScoreState) : ℕ :=
  s.n300 + s.n100 + s.n50 + s.misses

def PERFORMANCE_BASE_MULTIPLIER : ℝ := 1.12

def ENABLE_EFFECTIVE_MISS_COUNT : Bool := true

def ENABLE_LENGTH_BONUS : Bool := true

def ENABLE_CSR : Bool := true

/-- Performance attributes (`src/osu/attributes.rs:87`). -/
structure OsuPerformanceAttributes where
  difficulty : OsuDifficultyAttributes
  pp : ℝ
  pp_aim : ℝ
  pp_jump_aim : ℝ
  pp_flow_aim : ℝ
  pp_precision : ℝ
  pp_speed : ℝ
  pp_stamina : ℝ
  pp_acc : ℝ
  effective_miss_count : ℝ

/-- From `src/osu/performance/calculator.rs:205`. -/
def OsuPerformanceCalculator.calculate_skill_value (skill_diff : ℝ) : ℝ :=
  skill_diff ^ (3 : ℝ) * 3.9

/-- From `src/osu/performance/calculator.rs:209`. The statrs distributions
are abstracted by the two function arguments: `beta_inverse_cdf α β` is
`Beta::new(α, β).map(|b| b.inverse_cdf(0.2))` with `none` for a construction
failure, `normal_inverse_cdf p` is the standard normal inverse CDF at `p`
with `none` for a construction failure. -/
def OsuPerformanceCalculator.calculate_normalized_hit_error
    (beta_inverse_cdf : ℝ → ℝ → Option ℝ) (normal_inverse_cdf : ℝ → Option ℝ)
    (od : ℝ) (object_count accuracy_object_count count300 : ℕ) : ℝ :=
  let relevant_300_count : ℤ :=
    (count300 : ℤ) - ((object_count : ℤ) - (accuracy_object_count : ℤ))
  if relevant_300_count ≤ 0 then 200 - od * 10
  else
    match beta_inverse_cdf (relevant_300_count : ℝ)
        (1 + (accuracy_object_count : ℝ) - (relevant_300_count : ℝ)) with
    | none => 200 - od * 10
    | some probability =>
      let probability := probability + (1 - probability) / 2
      match normal_inverse_cdf probability with
      | none => 200 - od * 10
      | some z_value => (79.5 - od * 6) / z_value

/-- From `src/osu/performance/calculator.rs:246`. The `is_finite` guard on
`powered_ln` is vacuous in the real-number model. -/
def OsuPerformanceCalculator.calculate_miss_weight
    (effective_miss_count difficult_strain_count : ℝ) : ℝ :=
  if ENABLE_CSR then
    if difficult_strain_count ≤ 1 then 0.96 / (effective_miss_count / 4 + 1)
    else
      let ln_value := Real.log difficult_strain_count
      let powered_ln := ln_value ^ (0.94 : ℝ)
      if 0 < powered_ln then 0.96 / (effective_miss_count / (4 * powered_ln) + 1)
      else 0.96 / (effective_miss_count / 4 + 1)
  else (0.97 : ℝ) ^ effective_miss_count

/-- From `src/osu/performance/calculator.rs:268`. -/
def OsuPerformanceCalculator.calculate_aim_weight (fl : Bool)
    (normalized_hit_error total_hits : ℝ) (attrs_max_combo state_max_combo : ℕ) : ℝ :=
  let accuracy_weight := (0.995 : ℝ) ^ normalized_hit_error * 1.04
  let combo_weight :=
    if ENABLE_CSR then 1
    else if attrs_max_combo = 0 then 1
    else ((state_max_combo : ℝ) ^ (0.8 : ℝ)) / ((attrs_max_combo : ℝ) ^ (0.8 : ℝ))
  let flashlight_length_weight :=
    if fl then 1 + combo_weight * Real.arctan (total_hits / 2000) else 1
  accuracy_weight * combo_weight * flashlight_length_weight

/-- From `src/osu/performance/calculator.rs:290`. -/
def OsuPerformanceCalculator.calculate_speed_weight
    (normalized_hit_error : ℝ) (attrs_max_combo state_max_combo : ℕ) : ℝ :=
  let accuracy_weight := (0.985 : ℝ) ^ normalized_hit_error * 1.12
  let combo_weight :=
    if ENABLE_CSR then 1
    else if attrs_max_combo = 0 then 1
    else ((state_max_combo : ℝ) ^ (0.4 : ℝ)) / ((attrs_max_combo : ℝ) ^ (0.4 : ℝ))
  accuracy_weight * combo_weight

/-- From `src/osu/performance/calculator.rs:306`. -/
def OsuPerformanceCalculator.calculate_accuracy_weight (hd fl : Bool)
    (accuracy_hit_objects_count : ℕ) : ℝ :=
  let length_weight := Real.tanh (((accuracy_hit_objects_count : ℝ) + 400) / 1050) * 1.2
  let mod_weight := (if hd then (1.02 : ℝ) else 1) * (if fl then (1.04 : ℝ) else 1)
  length_weight * mod_weight

/-- From `src/osu/performance/calculator.rs:320`. -/
def OsuPerformanceCalculator.calculate_accuracy_value (normalized_hit_error : ℝ) : ℝ :=
  560 * (0.85 : ℝ) ^ normalized_hit_error

/-- From `src/osu/performance/calculator.rs:324`. -/
def OsuPerformanceCalculator.calculate_effective_miss_count
    (attributes : OsuDifficultyAttributes)
    (score_max_combo count_miss count_mistakes : ℕ) : ℝ :=
  let combo_based_miss_count :=
    if attributes.n_sliders > 0 then
      let full_combo_threshold :=
        (attributes.max_combo : ℝ) - 0.1 * (attributes.n_sliders : ℝ)
      if (score_max_combo : ℝ) < full_combo_threshold then
        full_combo_threshold / max (score_max_combo : ℝ) 1
      else 0
    else 0
  let combo_based_miss_count := min combo_based_miss_count (count_mistakes : ℝ)
  max (count_miss : ℝ) combo_based_miss_count

/-- From `src/osu/performance/calculator.rs:56` (`calculate`): the complete
performance evaluation (the debug prints of the source are non-contract and
omitted). -/
def OsuPerformanceCalculator.calculate
    (beta_inverse_cdf : ℝ → ℝ → Option ℝ) (normal_inverse_cdf : ℝ → Option ℝ)
    (attrs : OsuDifficultyAttributes) (mods : GameMods) (state : OsuScoreState)
    (using_classic_slider_acc : Bool) : OsuPerformanceAttributes :=
  let total_hits := state.total_hits
  if total_hits = 0 then
    { difficulty := attrs, pp := 0, pp_aim := 0, pp_jump_aim := 0, pp_flow_aim := 0
      pp_precision := 0, pp_speed := 0, pp_stamina := 0, pp_acc := 0
      effective_miss_count := 0 }
  else
    let multiplier := PERFORMANCE_BASE_MULTIPLIER
    let effective_miss_count : ℝ := (state.misses : ℝ)
    let accuracy_hit_objects_count :=
      if !using_classic_slider_acc then attrs.n_circles + attrs.n_sliders
      else attrs.n_circles
    let effective_miss_count :=
      if using_classic_slider_acc && ENABLE_EFFECTIVE_MISS_COUNT then
        max effective_miss_count
          (OsuPerformanceCalculator.calculate_effective_miss_count attrs
            state.max_combo state.misses (total_hits - state.n300))
      else effective_miss_count
    let normalized_hit_error :=
      OsuPerformanceCalculator.calculate_normalized_hit_error
        beta_inverse_cdf normal_inverse_cdf attrs.od total_hits
        accuracy_hit_objects_count state.n300
    let total_hits_f : ℝ := (total_hits : ℝ)
    let multiplier :=
      if mods.nf then multiplier * max (1 - 0.02 * (state.misses : ℝ)) 0.9 else multiplier
    let multiplier :=
      if mods.so ∧ total_hits_f > 0 then
        multiplier * (1 - ((attrs.n_spinners : ℝ) / total_hits_f) ^ (0.85 : ℝ))
      else multiplier
    let effective_miss_count :=
      if mods.rx then
        let od := attrs.od
        let n100_mult := if od > 0 then max (1 - (od / 13.33) ^ (1.8 : ℝ)) 0 else 1
        let n50_mult := if od > 0 then max (1 - (od / 13.33) ^ (5 : ℝ)) 0 else 1
        min (effective_miss_count + (state.n100 : ℝ) * n100_mult
          + (state.n50 : ℝ) * n50_mult) total_hits_f
      else effective_miss_count
    let aim_weight := OsuPerformanceCalculator.calculate_aim_weight mods.fl
      normalized_hit_error total_hits_f attrs.max_combo state.max_combo
    let speed_weight := OsuPerformanceCalculator.calculate_speed_weight
      normalized_hit_error attrs.max_combo state.max_combo
    let accuracy_weight := OsuPerformanceCalculator.calculate_accuracy_weight
      mods.hd mods.fl accuracy_hit_objects_count
    let aim_value := aim_weight * OsuPerformanceCalculator.calculate_skill_value attrs.aim
      * OsuPerformanceCalculator.calculate_miss_weight effective_miss_count
          attrs.aim_difficult_strain_count
    let jump_aim_value := aim_weight * OsuPerformanceCalculator.calculate_skill_value attrs.jump
      * OsuPerformanceCalculator.calculate_miss_weight effective_miss_count
          attrs.jump_aim_difficult_strain_count
    let flow_aim_value := aim_weight * OsuPerformanceCalculator.calculate_skill_value attrs.flow
      * OsuPerformanceCalculator.calculate_miss_weight effective_miss_count
          attrs.flow_aim_difficult_strain_count
    let precision_value := aim_weight
      * OsuPerformanceCalculator.calculate_skill_value attrs.precision
      * OsuPerformanceCalculator.calculate_miss_weight effective_miss_count
          attrs.aim_difficult_strain_count
    let speed_value := speed_weight * OsuPerformanceCalculator.calculate_skill_value attrs.speed
      * OsuPerformanceCalculator.calculate_miss_weight effective_miss_count
          attrs.speed_difficult_strain_count
    let stamina_value := speed_weight
      * OsuPerformanceCalculator.calculate_skill_value attrs.stamina
      * OsuPerformanceCalculator.calculate_miss_weight effective_miss_count
          attrs.stamina_difficult_strain_count
    let accuracy_value := OsuPerformanceCalculator.calculate_accuracy_value normalized_hit_error
      * attrs.accuracy * accuracy_weight
    let length_bonus := 0.95 + 0.4 * min (total_hits_f / 2000) 1
      + (if total_hits_f > 2000 then Real.logb 10 (total_hits_f / 2000) * 0.5 else 0)
    let final_aim := if ENABLE_LENGTH_BONUS then aim_value * length_bonus else aim_value
    let final_jump_aim :=
      if ENABLE_LENGTH_BONUS then jump_aim_value * length_bonus else jump_aim_value
    let final_flow_aim :=
      if ENABLE_LENGTH_BONUS then flow_aim_value * length_bonus else flow_aim_value
    let final_precision :=
      if ENABLE_LENGTH_BONUS then precision_value * length_bonus else precision_value
    let final_speed := if ENABLE_LENGTH_BONUS then speed_value * length_bonus else speed_value
    let final_stamina := stamina_value
    let total_value :=
      (final_aim ^ (1.1 : ℝ) + (max final_speed final_stamina) ^ (1.1 : ℝ)
        + accuracy_value ^ (1.1 : ℝ)) ^ ((1 : ℝ) / 1.1) * multiplier
    { difficulty := attrs
      pp := total_value
      pp_aim := final_aim
      pp_jump_aim := final_jump_aim
      pp_flow_aim := final_flow_aim
      pp_precision := final_precision
      pp_speed := final_speed
      pp_stamina := final_stamina
      pp_acc := accuracy_value
      effective_miss_count := effective_miss_count }

/-! ## Concrete fixtures used to evaluate the model at explicit inputs -/

/-- A minimal difficulty object fixture: only `last_two_strain_time` and
`flow` are varied, every other field is zeroed. -/
def fixture_object (last_two : Option ℝ) (flow : ℝ) : OsuDifficultyObject :=
  { idx := 0, base := ⟨⟨0, 0⟩, 0, .circle⟩, delta_time := 0, start_time := 0,
    end_time := 0, gap_time := 0, strain_time := 0, last_two_strain_time := last_two,
    raw_jump_dist := 0, jump_dist := 0, base_flow := 0, flow := flow,
    travel_dist := 0, travel_time := 0, angle := none, angle_leniency := 0,
    preempt := 0, stream_bpm := 0 }

/-- A circle fixture at a given position and start time. -/
def circle_fixture (x y start_time : ℝ) : OsuObject := ⟨⟨x, y⟩, start_time, .circle⟩

/-- A spinner fixture at position `(100, 0)`, for the spinner distance
counterexample. -/
def spinner_fixture : OsuObject := ⟨⟨100, 0⟩, 0, .spinner 0⟩

/-- Empty-map difficulty attributes: all ratings and counts zero, a great
hit window of `79.5` ms (OD 0). -/
def empty_map_attrs : OsuDifficultyAttributes :=
  { aim := 0, aim_difficult_slider_count := 0, jump := 0, flow := 0, precision := 0,
    speed := 0, stamina := 0, accuracy := 0, aim_difficult_strain_count := 0,
    jump_aim_difficult_strain_count := 0, flow_aim_difficult_strain_count := 0,
    speed_difficult_strain_count := 0, stamina_difficult_strain_count := 0,
    great_hit_window := 79.5, n_circles := 0, n_sliders := 0, n_spinners := 0,
    stars := 0, max_combo := 0 }

/-- Attributes of a one-circle map (counts only; the ratings are produced by
`DifficultyValues.eval` in the theorems). -/
def one_circle_attrs : OsuDifficultyAttributes :=
  { empty_map_attrs with n_circles := 1, max_combo := 1 }

def no_mods : GameMods := ⟨false, false, false, false, false, false, false⟩

/-- Relax only. -/
def rx_mods : GameMods := ⟨false, false, false, false, true, false, false⟩

/-- Autopilot only. -/
def ap_mods : GameMods := ⟨false, false, false, false, false, true, false⟩

/-- The all-zero score state of an empty map. -/
def zero_state : OsuScoreState := ⟨0, 0, 0, 0, 0⟩

/-- A perfect single-circle score: combo 1, one 300. -/
def one_circle_state : OsuScoreState := ⟨1, 1, 0, 0, 0⟩

/-- A Beta-distribution step that always fails. -/
def beta_fail : ℝ → ℝ → Option ℝ := fun _ _ => none

/-- The difficulty attributes the pipeline produces on a map with zero
hit-objects: every strain skill reports `difficulty_value_old` of its single
pending zero section peak, the rhythm-complexity skill its initial value,
and all strain counts are zero. -/
def empty_map_eval (attrs0 : OsuDifficultyAttributes) (mods : GameMods)
    (is_slider_acc : Bool) : OsuDifficultyAttributes :=
  DifficultyValues.eval attrs0 mods
    (difficulty_value_old strain_skill_empty_peaks DECAY_WEIGHT)
    (difficulty_value_old strain_skill_empty_peaks DECAY_WEIGHT)
    (difficulty_value_old strain_skill_empty_peaks DECAY_WEIGHT)
    (difficulty_value_old strain_skill_empty_peaks DECAY_WEIGHT)
    (difficulty_value_old strain_skill_empty_peaks DECAY_WEIGHT)
    (difficulty_value_old strain_skill_empty_peaks DECAY_WEIGHT)
    (RhythmComplexity.new is_slider_acc).cloned_difficulty_value
    0 0 0 0 0 0

/-- A Normal-distribution step that always fails. -/
def normal_fail : ℝ → Option ℝ := fun _ => none

end

end Rosu

open Rosu

/-! ## Helper bounds for the transition functions -/

theorem transition_to_true_nonneg (v s i : ℝ) : 0 ≤ transition_to_true v s i := by
  unfold transition_to_true fmidpoint
  split_ifs with h1 h2
  · norm_num
  · norm_num
  · have := Real.cos_le_one ((v - s) * Real.pi / i)
    linarith

theorem transition_to_true_le_one (v s i : ℝ) : transition_to_true v s i ≤ 1 := by
  unfold transition_to_true fmidpoint
  split_ifs with h1 h2
  · norm_num
  · norm_num
  · have := Real.neg_one_le_cos ((v - s) * Real.pi / i)
    linarith

theorem transition_to_false_nonneg (v s i : ℝ) : 0 ≤ transition_to_false v s i := by
  unfold transition_to_false fmidpoint
  split_ifs with h1 h2
  · norm_num
  · norm_num
  · have := Real.neg_one_le_cos ((v - s) * Real.pi / i)
    linarith

theorem transition_to_false_le_one (v s i : ℝ) : transition_to_false v s i ≤ 1 := by
  unfold transition_to_false fmidpoint
  split_ifs with h1 h2
  · norm_num
  · norm_num
  · have := Real.cos_le_one ((v - s) * Real.pi / i)
    linarith


/-! ## Claim C6: flashlight multiplier of the aim reading multiplier -/

/-- Claim C6 (corrected): when Flashlight is active the multiplier is
`1 + transition_to_true(raw_jump_dist, 96, radius)·0.3` — the transition
starts at `PLAYFIELD_BASE_SIZE.y/4 = 96`, not at `48` as the spec words
it — and when Flashlight is inactive the factor is exactly `1`. -/
theorem claim_C6_amended (raw_jump_distance radius : ℝ) :
    calc_flashlight_multiplier true raw_jump_distance radius
      = 1 + transition_to_true raw_jump_distance 96 radius * 0.3 ∧
    calc_flashlight_multiplier false raw_jump_distance radius = 1 := by
  constructor
  · unfold calc_flashlight_multiplier
    rw [if_pos rfl]
    norm_num [PLAYFIELD_BASE_SIZE]
  · unfold calc_flashlight_multiplier
    rw [if_neg (by simp)]

/-- Claim C6 counterexample: at `raw_jump_dist = 73`, `radius = 50` the
source multiplier is `1` (the transition has not started at 96), while the
spec formula with transition start `48` gives `1.15`. -/
theorem claim_C6_counterexample :
    calc_flashlight_multiplier true 73 50 ≠ spec_flashlight_multiplier 73 50 := by
  have h1 : calc_flashlight_multiplier true 73 50 = 1 := by
    unfold calc_flashlight_multiplier
    rw [if_pos rfl]
    have hy : PLAYFIELD_BASE_SIZE.y = 384 := rfl
    rw [hy]
    unfold transition_to_true
    rw [if_pos (by norm_num : (73 : ℝ) ≤ 384 / 4)]
    norm_num
  have h2 : spec_flashlight_multiplier 73 50 = 1.15 := by
    unfold spec_flashlight_multiplier transition_to_true fmidpoint
    rw [if_neg (by norm_num), if_neg (by norm_num)]
    have harg : ((73 : ℝ) - 48) * Real.pi / 50 = Real.pi / 2 := by ring
    rw [harg, Real.cos_pi_div_two]
    norm_num
  rw [h1, h2]
  norm_num

/-! ## Claim C7: normalized-hit-error totality and fallbacks -/

/-- Claim C7 (confirmed): the normalized-hit-error computation is total; if
`relevant_300_count ≤ 0` it returns `200 − 10·od`, and whenever the Beta or
the Normal distribution step fails (`none`) it also returns `200 − 10·od`. -/
theorem claim_C7 (beta_inverse_cdf : ℝ → ℝ → Option ℝ)
    (normal_inverse_cdf : ℝ → Option ℝ) (od : ℝ)
    (object_count accuracy_object_count count300 : ℕ) :
    ((count300 : ℤ) - ((object_count : ℤ) - (accuracy_object_count : ℤ)) ≤ 0 →
      OsuPerformanceCalculator.calculate_normalized_hit_error beta_inverse_cdf
        normal_inverse_cdf od object_count accuracy_object_count count300
        = 200 - od * 10) ∧
    (beta_inverse_cdf
        (((count300 : ℤ) - ((object_count : ℤ) - (accuracy_object_count : ℤ)) : ℤ) : ℝ)
        (1 + (accuracy_object_count : ℝ)
          - (((count300 : ℤ) - ((object_count : ℤ) - (accuracy_object_count : ℤ)) : ℤ) : ℝ))
        = none →
      OsuPerformanceCalculator.calculate_normalized_hit_error beta_inverse_cdf
        normal_inverse_cdf od object_count accuracy_object_count count300
        = 200 - od * 10) ∧
    (∀ p : ℝ,
      beta_inverse_cdf
        (((count300 : ℤ) - ((object_count : ℤ) - (accuracy_object_count : ℤ)) : ℤ) : ℝ)
        (1 + (accuracy_object_count : ℝ)
          - (((count300 : ℤ) - ((object_count : ℤ) - (accuracy_object_count : ℤ)) : ℤ) : ℝ))
        = some p →
      normal_inverse_cdf (p + (1 - p) / 2) = none →
      OsuPerformanceCalculator.calculate_normalized_hit_error beta_inverse_cdf
        normal_inverse_cdf od object_count accuracy_object_count count300
        = 200 - od * 10) := by
  refine ⟨?_, ?_, ?_⟩
  · intro h
    unfold OsuPerformanceCalculator.calculate_normalized_hit_error
    rw [if_pos h]
  · intro h
    unfold OsuPerformanceCalculator.calculate_normalized_hit_error
    by_cases hrel :
      (count300 : ℤ) - ((object_count : ℤ) - (accuracy_object_count : ℤ)) ≤ 0
    · rw [if_pos hrel]
    · rw [if_neg hrel, h]
  · intro p hbeta hnormal
    unfold OsuPerformanceCalculator.calculate_normalized_hit_error
    by_cases hrel :
      (count300 : ℤ) - ((object_count : ℤ) - (accuracy_object_count : ℤ)) ≤ 0
    · rw [if_pos hrel]
    · rw [if_neg hrel, hbeta]
      simp only
      rw [hnormal]

/-- Claim C7 witness: with one object, one 300 and a failing Beta step, the
result is the OD-based fallback `200 − 10·8 = 120`. -/
theorem claim_C7_witness :
    OsuPerformanceCalculator.calculate_normalized_hit_error
      (fun _ _ => none) (fun _ => none) 8 1 1 1 = 200 - 8 * 10 :=
  (claim_C7 (fun _ _ => none) (fun _ => none) 8 1 1 1).2.1 rfl

/-! ## Claim C8: miss weight branches and positivity -/

/-- Claim C8 (confirmed): for `effective_miss_count ≥ 0`, the miss weight is
`0.96 / (1 + emc/(4·ln(c)^0.94))` when `c > 1` (over the reals `ln(c)^0.94`
is then always positive, so the non-positive fallback branch is
unreachable) and the result is positive; when `c ≤ 1` it is the safe
fallback `0.96 / (1 + emc/4)`. -/
theorem claim_C8 (effective_miss_count difficult_strain_count : ℝ)
    (h : 0 ≤ effective_miss_count) :
    (difficult_strain_count ≤ 1 →
      OsuPerformanceCalculator.calculate_miss_weight effective_miss_count
          difficult_strain_count
        = 0.96 / (effective_miss_count / 4 + 1)) ∧
    (1 < difficult_strain_count →
      OsuPerformanceCalculator.calculate_miss_weight effective_miss_count
          difficult_strain_count
        = 0.96 / (effective_miss_count
            / (4 * Real.log difficult_strain_count ^ (0.94 : ℝ)) + 1) ∧
      0 < OsuPerformanceCalculator.calculate_miss_weight effective_miss_count
          difficult_strain_count) := by
  constructor
  · intro hle
    unfold OsuPerformanceCalculator.calculate_miss_weight
    have hcsr : ENABLE_CSR = true := rfl
    rw [if_pos hcsr, if_pos hle]
  · intro hlt
    have hlog : 0 < Real.log difficult_strain_count := Real.log_pos hlt
    have hpow : 0 < Real.log difficult_strain_count ^ (0.94 : ℝ) :=
      Real.rpow_pos_of_pos hlog _
    have heq : OsuPerformanceCalculator.calculate_miss_weight effective_miss_count
        difficult_strain_count
        = 0.96 / (effective_miss_count
            / (4 * Real.log difficult_strain_count ^ (0.94 : ℝ)) + 1) := by
      unfold OsuPerformanceCalculator.calculate_miss_weight
      have hcsr : ENABLE_CSR = true := rfl
      rw [if_pos hcsr, if_neg (not_le.mpr hlt)]
      simp only
      rw [if_pos hpow]
    refine ⟨heq, ?_⟩
    rw [heq]
    have hden : 0 < effective_miss_count
        / (4 * Real.log difficult_strain_count ^ (0.94 : ℝ)) + 1 := by
      have : 0 ≤ effective_miss_count
          / (4 * Real.log difficult_strain_count ^ (0.94 : ℝ)) :=
        div_nonneg h (by positivity)
      linarith
    positivity

/-- Claim C8 witness: at `emc = 0`, `c = 2` the main branch applies and the
weight is positive; at `emc = 3`, `c = 1` the fallback applies. -/
theorem claim_C8_witness :
    0 < OsuPerformanceCalculator.calculate_miss_weight 0 2 ∧
    OsuPerformanceCalculator.calculate_miss_weight 3 1 = 0.96 / (3 / 4 + 1) :=
  ⟨((claim_C8 0 2 le_rfl).2 (by norm_num)).2,
    (claim_C8 3 1 (by norm_num)).1 le_rfl⟩

/-! ## Claim C4: Speed vs Stamina evaluators -/

/-- Claim C4 (corrected): both evaluators blend a tap and a stream curve by
`flow` over `ms = last_two_strain_time / 2`, and Stamina's multiplier is the
fixed fraction `0.3` of Speed's — but the strain decay bases differ
(`0.1` vs `0.45`), the tap/stream curves differ, and the per-object strain
increments are not related by any fixed scalar. -/
theorem claim_C4_amended :
    Speed.STRAIN_DECAY_BASE = 0.1 ∧ Stamina.STRAIN_DECAY_BASE = 0.45 ∧
    Stamina.SKILL_MULTIPLIER = 0.3 * Speed.SKILL_MULTIPLIER ∧
    (∀ (o : OsuDifficultyObject) (v : ℝ), o.last_two_strain_time = some v →
      SpeedEvaluator.evaluate_diff_of o
        = (1 - o.flow) * (30 / (v / 2 - 20) ^ (2 : ℝ) + 2 / (v / 2))
          + o.flow * (12.5 / (v / 2 - 20) ^ (2 : ℝ) + 0.25 / (v / 2) + 0.005) ∧
      StaminaEvaluator.evaluate_diff_of o
        = (1 - o.flow) * (2 / (v / 2 - 20)) + o.flow * (1 / (v / 2 - 20))) ∧
    ¬ ∃ k : ℝ, ∀ o : OsuDifficultyObject,
        StaminaEvaluator.evaluate_diff_of o * Stamina.SKILL_MULTIPLIER
          = k * (SpeedEvaluator.evaluate_diff_of o * Speed.SKILL_MULTIPLIER) := by
  refine ⟨rfl, rfl, by norm_num [Stamina.SKILL_MULTIPLIER, Speed.SKILL_MULTIPLIER], ?_, ?_⟩
  · intro o v h
    constructor
    · simp only [SpeedEvaluator.evaluate_diff_of, h]
    · simp only [StaminaEvaluator.evaluate_diff_of, h]
  · rintro ⟨k, hk⟩
    have h1 := hk (fixture_object (some 60) 0)
    have h2 := hk (fixture_object (some 100) 0)
    simp only [SpeedEvaluator.evaluate_diff_of, StaminaEvaluator.evaluate_diff_of,
      fixture_object, Stamina.SKILL_MULTIPLIER, Speed.SKILL_MULTIPLIER,
      Real.rpow_two] at h1 h2
    norm_num at h1 h2
    linarith

/-- Claim C4 counterexample: the strain decay bases differ, and at the two
concrete objects with `last_two_strain_time` 60 and 100 (flow 0) the
Stamina/Speed increment ratios differ, so no fixed scalar relates them. -/
theorem claim_C4_counterexample :
    Speed.STRAIN_DECAY_BASE ≠ Stamina.STRAIN_DECAY_BASE ∧
    StaminaEvaluator.evaluate_diff_of (fixture_object (some 60) 0) * Stamina.SKILL_MULTIPLIER
        * (SpeedEvaluator.evaluate_diff_of (fixture_object (some 100) 0) * Speed.SKILL_MULTIPLIER)
      ≠ StaminaEvaluator.evaluate_diff_of (fixture_object (some 100) 0) * Stamina.SKILL_MULTIPLIER
        * (SpeedEvaluator.evaluate_diff_of (fixture_object (some 60) 0) * Speed.SKILL_MULTIPLIER) := by
  constructor
  · norm_num [Speed.STRAIN_DECAY_BASE, Stamina.STRAIN_DECAY_BASE]
  · simp only [SpeedEvaluator.evaluate_diff_of, StaminaEvaluator.evaluate_diff_of,
      fixture_object, Stamina.SKILL_MULTIPLIER, Speed.SKILL_MULTIPLIER,
      Real.rpow_two]
    norm_num

/-- Claim C4 witness: the Stamina expression instantiated at the concrete
object with `last_two_strain_time = 60`. -/
theorem claim_C4_witness :
    StaminaEvaluator.evaluate_diff_of (fixture_object (some 60) 0)
      = (1 - (fixture_object (some 60) 0).flow) * (2 / (60 / 2 - 20))
        + (fixture_object (some 60) 0).flow * (1 / (60 / 2 - 20)) :=
  (claim_C4_amended.2.2.2.1 (fixture_object (some 60) 0) 60 rfl).2

/-! ## Claim C5: jump distances in `set_distances` -/

/-- Scaling both endpoints by a non-negative factor scales the distance. -/
theorem Pos_scale_sub_length (p q : Pos) (f : ℝ) (hf : 0 ≤ f) :
    ((p.scale f).sub (q.scale f)).length = f * (p.sub q).length := by
  unfold Pos.scale Pos.sub Pos.length
  simp only
  have h : (p.x * f - q.x * f) ^ 2 + (p.y * f - q.y * f) ^ 2
      = f ^ 2 * ((p.x - q.x) ^ 2 + (p.y - q.y) ^ 2) := by ring
  rw [h, Real.sqrt_mul (sq_nonneg f), Real.sqrt_sq hf]

/-- Claim C5 (corrected): `jump_dist` is always the distance between the
factor-scaled positions, i.e. `factor · ‖curr − end_cursor(last)‖`; for a
non-spinner this equals `raw_jump_dist · factor`, but for a spinner
`raw_jump_dist = 0` while `jump_dist` keeps the scaled distance, so
`jump_dist = raw_jump_dist · factor` fails there. -/
theorem claim_C5_amended (curr : OsuObject) (strain_time_now start_time : ℝ)
    (last_object : OsuObject) (last_last_object : Option OsuObject)
    (clock_rate factor : ℝ) (hf : 0 ≤ factor) :
    (set_distances curr strain_time_now start_time last_object last_last_object
        clock_rate factor).jump_dist
      = factor * ((curr.stacked_pos).sub (get_end_cursor_pos last_object)).length ∧
    (curr.is_spinner = false →
      (set_distances curr strain_time_now start_time last_object last_last_object
          clock_rate factor).raw_jump_dist
        = ((curr.stacked_pos).sub (get_end_cursor_pos last_object)).length ∧
      (set_distances curr strain_time_now start_time last_object last_last_object
          clock_rate factor).jump_dist
        = (set_distances curr strain_time_now start_time last_object last_last_object
            clock_rate factor).raw_jump_dist * factor) ∧
    (curr.is_spinner = true →
      (set_distances curr strain_time_now start_time last_object last_last_object
          clock_rate factor).raw_jump_dist = 0) := by
  refine ⟨?_, ?_, ?_⟩
  · simp only [set_distances]
    exact Pos_scale_sub_length _ _ _ hf
  · intro h
    constructor
    · simp only [set_distances, h]
      rw [if_neg (by simp [h])]
    · simp only [set_distances]
      rw [if_neg (by simp [h]), Pos_scale_sub_length _ _ _ hf, mul_comm]
  · intro h
    simp only [set_distances]
    rw [if_pos h]

/-- Claim C5 counterexample: for a spinner at `(100, 0)` after a circle at
the origin with `factor = 1`, `raw_jump_dist = 0` but `jump_dist = 100`, so
`jump_dist ≠ raw_jump_dist · factor`. -/
theorem claim_C5_counterexample :
    (set_distances spinner_fixture 0 0 (circle_fixture 0 0 0) none 1 1).raw_jump_dist = 0 ∧
    (set_distances spinner_fixture 0 0 (circle_fixture 0 0 0) none 1 1).jump_dist
      ≠ (set_distances spinner_fixture 0 0 (circle_fixture 0 0 0) none 1 1).raw_jump_dist
        * 1 := by
  have hraw :
      (set_distances spinner_fixture 0 0 (circle_fixture 0 0 0) none 1 1).raw_jump_dist
        = 0 := by
    simp only [set_distances]
    rw [if_pos (show spinner_fixture.is_spinner = true from rfl)]
  have hjump :
      (set_distances spinner_fixture 0 0 (circle_fixture 0 0 0) none 1 1).jump_dist
        = 100 := by
    simp only [set_distances, spinner_fixture, circle_fixture, get_end_cursor_pos,
      OsuObject.stacked_pos, Pos.scale, Pos.sub, Pos.length]
    have h : ((100 : ℝ) * 1 - 0 * 1) ^ 2 + ((0 : ℝ) * 1 - 0 * 1) ^ 2 = 100 ^ 2 := by
      norm_num
    rw [h, Real.sqrt_sq (by norm_num : (0 : ℝ) ≤ 100)]
  refine ⟨hraw, ?_⟩
  rw [hraw, hjump]
  norm_num

/-- Claim C5 witness: for the non-spinner circle at `(30, 40)` after a circle
at the origin with factor `1`, `raw_jump_dist` is the plain distance and
`jump_dist = raw_jump_dist · 1`. -/
theorem claim_C5_witness :
    (set_distances (circle_fixture 30 40 0) 0 0 (circle_fixture 0 0 0) none 1 1).raw_jump_dist
      = (((circle_fixture 30 40 0).stacked_pos).sub
          (get_end_cursor_pos (circle_fixture 0 0 0))).length ∧
    (set_distances (circle_fixture 30 40 0) 0 0 (circle_fixture 0 0 0) none 1 1).jump_dist
      = (set_distances (circle_fixture 30 40 0) 0 0 (circle_fixture 0 0 0) none 1 1).raw_jump_dist
        * 1 :=
  (claim_C5_amended (circle_fixture 30 40 0) 0 0 (circle_fixture 0 0 0) none 1 1
    (by norm_num)).2.1 rfl

/-! ## Positivity helpers for the performance weights -/

theorem calculate_miss_weight_pos (effective_miss_count difficult_strain_count : ℝ)
    (h : 0 ≤ effective_miss_count) :
    0 < OsuPerformanceCalculator.calculate_miss_weight effective_miss_count
      difficult_strain_count := by
  unfold OsuPerformanceCalculator.calculate_miss_weight
  have hcsr : ENABLE_CSR = true := rfl
  rw [if_pos hcsr]
  dsimp only
  split_ifs with h1 h2
  · have hd : (0 : ℝ) < effective_miss_count / 4 + 1 := by
      have : 0 ≤ effective_miss_count / 4 := by positivity
      linarith
    exact div_pos (by norm_num) hd
  · have hd : (0 : ℝ) < effective_miss_count
        / (4 * Real.log difficult_strain_count ^ (0.94 : ℝ)) + 1 := by
      have h4 : (0 : ℝ) < 4 * Real.log difficult_strain_count ^ (0.94 : ℝ) := by linarith
      have := div_nonneg h (le_of_lt h4)
      linarith
    exact div_pos (by norm_num) hd
  · have hd : (0 : ℝ) < effective_miss_count / 4 + 1 := by
      have : 0 ≤ effective_miss_count / 4 := by positivity
      linarith
    exact div_pos (by norm_num) hd

theorem calculate_aim_weight_pos (fl : Bool) (normalized_hit_error total_hits : ℝ)
    (attrs_max_combo state_max_combo : ℕ) (hth : 0 ≤ total_hits) :
    0 < OsuPerformanceCalculator.calculate_aim_weight fl normalized_hit_error
      total_hits attrs_max_combo state_max_combo := by
  unfold OsuPerformanceCalculator.calculate_aim_weight
  have hcsr : ENABLE_CSR = true := rfl
  rw [if_pos hcsr]
  have hacc : 0 < (0.995 : ℝ) ^ normalized_hit_error * 1.04 := by positivity
  have harctan : 0 ≤ Real.arctan (total_hits / 2000) := by
    have hm := Real.arctan_strictMono.monotone
      (show (0 : ℝ) ≤ total_hits / 2000 by positivity)
    rwa [Real.arctan_zero] at hm
  have hb : (0 : ℝ) < 1 + Real.arctan (total_hits / 2000) := by linarith
  cases fl with
  | false =>
    simp only [Bool.false_eq_true, if_false, mul_one]
    nlinarith [hacc]
  | true =>
    simp only [if_true]
    nlinarith [mul_pos hacc hb, hacc, hb]

theorem calculate_skill_value_pos (d : ℝ) (hd : 0 < d) :
    0 < OsuPerformanceCalculator.calculate_skill_value d := by
  unfold OsuPerformanceCalculator.calculate_skill_value
  have := Real.rpow_pos_of_pos hd (3 : ℝ)
  linarith

/-! ## Claim C2: RX and AP mod invariants -/

/-- Claim C2 (corrected): with RX the speed rating and `pp_speed` are zero;
with AP (RX absent — RX takes precedence in the else-if chain) the aim
rating and `pp_aim` are zero, but only `pp_aim` of the aim family is forced
to zero (jump/flow/precision ratings are not zeroed by AP); the star rating
is always non-negative. -/
theorem claim_C2_amended (attrs0 : OsuDifficultyAttributes) (mods : GameMods)
    (aimV rawV jumpV flowV speedV staminaV rhythmV d1 d2 d3 d4 d5 d6 : ℝ)
    (state : OsuScoreState) (beta_inverse_cdf : ℝ → ℝ → Option ℝ)
    (normal_inverse_cdf : ℝ → Option ℝ) (classic : Bool) :
    (mods.rx = true →
      (DifficultyValues.eval attrs0 mods aimV rawV jumpV flowV speedV staminaV
        rhythmV d1 d2 d3 d4 d5 d6).speed = 0 ∧
      (OsuPerformanceCalculator.calculate beta_inverse_cdf normal_inverse_cdf
        (DifficultyValues.eval attrs0 mods aimV rawV jumpV flowV speedV staminaV
          rhythmV d1 d2 d3 d4 d5 d6) mods state classic).pp_speed = 0) ∧
    (mods.ap = true → mods.rx = false →
      (DifficultyValues.eval attrs0 mods aimV rawV jumpV flowV speedV staminaV
        rhythmV d1 d2 d3 d4 d5 d6).aim = 0 ∧
      (OsuPerformanceCalculator.calculate beta_inverse_cdf normal_inverse_cdf
        (DifficultyValues.eval attrs0 mods aimV rawV jumpV flowV speedV staminaV
          rhythmV d1 d2 d3 d4 d5 d6) mods state classic).pp_aim = 0) ∧
    0 ≤ (DifficultyValues.eval attrs0 mods aimV rawV jumpV flowV speedV staminaV
      rhythmV d1 d2 d3 d4 d5 d6).stars := by
  refine ⟨?_, ?_, ?_⟩
  · intro hrx
    have hspeed : (DifficultyValues.eval attrs0 mods aimV rawV jumpV flowV speedV
        staminaV rhythmV d1 d2 d3 d4 d5 d6).speed = 0 := by
      simp [DifficultyValues.eval, hrx]
    refine ⟨hspeed, ?_⟩
    by_cases h0 : state.total_hits = 0
    · simp [OsuPerformanceCalculator.calculate, h0]
    · simp [OsuPerformanceCalculator.calculate, h0, hspeed,
        OsuPerformanceCalculator.calculate_skill_value,
        Real.zero_rpow (by norm_num : (3 : ℝ) ≠ 0)]
  · intro hap hrx
    have haim : (DifficultyValues.eval attrs0 mods aimV rawV jumpV flowV speedV
        staminaV rhythmV d1 d2 d3 d4 d5 d6).aim = 0 := by
      simp [DifficultyValues.eval, hrx, hap]
    refine ⟨haim, ?_⟩
    by_cases h0 : state.total_hits = 0
    · simp [OsuPerformanceCalculator.calculate, h0]
    · simp [OsuPerformanceCalculator.calculate, h0, haim,
        OsuPerformanceCalculator.calculate_skill_value,
        Real.zero_rpow (by norm_num : (3 : ℝ) ≠ 0)]
  · simp only [DifficultyValues.eval, DIFFICULTY_MULTIPLIER]
    split_ifs <;> positivity

/-- Claim C2 witness: with RX only, on the one-jump fixture the speed rating
and `pp_speed` are both zero. -/
theorem claim_C2_witness :
    (DifficultyValues.eval empty_map_attrs rx_mods 0 0 0 0 1 0 0 0 0 0 0 0 0).speed = 0 ∧
    (OsuPerformanceCalculator.calculate beta_fail normal_fail
      (DifficultyValues.eval empty_map_attrs rx_mods 0 0 0 0 1 0 0 0 0 0 0 0 0)
      rx_mods zero_state false).pp_speed = 0 :=
  (claim_C2_amended empty_map_attrs rx_mods 0 0 0 0 1 0 0 0 0 0 0 0 0 zero_state
    beta_fail normal_fail false).1 rfl

/-- Claim C2 counterexample: with AP set, on a one-circle map whose jump-aim
difficulty value is 1 and a perfect score, `pp_jump_aim` is strictly
positive — AP does not zero the whole aim family, only `attrs.aim`. -/
theorem claim_C2_counterexample :
    ap_mods.ap = true ∧
    0 < (OsuPerformanceCalculator.calculate beta_fail normal_fail
      (DifficultyValues.eval one_circle_attrs ap_mods 0 0 1 0 0 0 0 0 0 0 0 0 0)
      ap_mods one_circle_state false).pp_jump_aim := by
  refine ⟨rfl, ?_⟩
  have hjump :
      (DifficultyValues.eval one_circle_attrs ap_mods 0 0 1 0 0 0 0 0 0 0 0 0 0).jump
        = 0.0675 := by
    simp [DifficultyValues.eval, DIFFICULTY_MULTIPLIER]
  have hjdsc :
      (DifficultyValues.eval one_circle_attrs ap_mods 0 0 1 0 0 0 0 0 0 0 0 0 0).jump_aim_difficult_strain_count
        = 0 := by
    simp [DifficultyValues.eval]
  have hnc :
      (DifficultyValues.eval one_circle_attrs ap_mods 0 0 1 0 0 0 0 0 0 0 0 0 0).n_circles
        = 1 := by
    simp [DifficultyValues.eval, one_circle_attrs, empty_map_attrs]
  have hns :
      (DifficultyValues.eval one_circle_attrs ap_mods 0 0 1 0 0 0 0 0 0 0 0 0 0).n_sliders
        = 0 := by
    simp [DifficultyValues.eval, one_circle_attrs, empty_map_attrs]
  have hod :
      (DifficultyValues.eval one_circle_attrs ap_mods 0 0 1 0 0 0 0 0 0 0 0 0 0).od
        = 0 := by
    norm_num [OsuDifficultyAttributes.od, DifficultyValues.eval, one_circle_attrs,
      empty_map_attrs]
  have htot : OsuScoreState.total_hits one_circle_state = 1 := rfl
  have hnhe : OsuPerformanceCalculator.calculate_normalized_hit_error beta_fail
      normal_fail 0 1 1 1 = 200 := by
    unfold OsuPerformanceCalculator.calculate_normalized_hit_error
    rw [if_neg (by norm_num)]
    simp [beta_fail]
  have hfl : ap_mods.fl = false := rfl
  have hhd : ap_mods.hd = false := rfl
  have hnf : ap_mods.nf = false := rfl
  have hso : ap_mods.so = false := rfl
  have hrx2 : ap_mods.rx = false := rfl
  have hmiss : one_circle_state.misses = 0 := rfl
  have hn300 : one_circle_state.n300 = 1 := rfl
  have hn100 : one_circle_state.n100 = 0 := rfl
  have hn50 : one_circle_state.n50 = 0 := rfl
  simp only [OsuPerformanceCalculator.calculate, htot]
  rw [if_neg (by norm_num : ¬ (1 = 0))]
  simp only [hfl, hhd, hnf, hso, hrx2, hmiss, hn300, hn100, hn50, Bool.not_false,
    Bool.false_and, Bool.false_eq_true, false_and, if_false, if_true,
    eq_self_iff_true, Nat.cast_one, Nat.cast_zero, ENABLE_LENGTH_BONUS,
    ENABLE_EFFECTIVE_MISS_COUNT]
  simp only [hjump, hjdsc, hnc, hns, hod]
  norm_num
  rw [hnhe]
  exact mul_pos
    (mul_pos (calculate_aim_weight_pos false 200 1 _ _ (by norm_num))
      (calculate_skill_value_pos (27 / 400) (by norm_num)))
    (calculate_miss_weight_pos 0 0 le_rfl)

/-! ## Claim C1: the empty map -/

/-- A strain skill that processed no objects has difficulty value zero. -/
theorem difficulty_value_old_empty (decay_weight : ℝ) :
    difficulty_value_old strain_skill_empty_peaks decay_weight = 0 := by
  unfold difficulty_value_old strain_skill_empty_peaks
  have hf : List.filter (fun p : ℝ => decide (0 < p)) [0] = [] := by
    rw [List.filter_cons]
    rw [decide_eq_false (lt_irrefl (0 : ℝ))]
    simp
  simp only [hf, List.insertionSort]
  rfl

/-- The rhythm-complexity difficulty value of the initial state is 1. -/
theorem rhythm_new_value (is_slider_acc : Bool) :
    (RhythmComplexity.new is_slider_acc).cloned_difficulty_value = 1 := by
  unfold RhythmComplexity.cloned_difficulty_value RhythmComplexity.new
    calc_difficulty_value_for
  norm_num

/-- Claim C1 (corrected): on a map with zero hit-objects every rating and
the star rating are 0 and `n_objects = 0`, and a performance calculation
with the empty map's (all-zero) score state yields `pp = 0` and all
per-skill pp `= 0` — except that the accuracy rating is `1`, not `0`: the
rhythm aggregation returns `1` on an empty count and the accuracy rating is
its square root. -/
theorem claim_C1_amended (attrs0 : OsuDifficultyAttributes) (mods : GameMods)
    (is_slider_acc : Bool) (hc : attrs0.n_circles = 0) (hs : attrs0.n_sliders = 0)
    (hp : attrs0.n_spinners = 0) :
    (empty_map_eval attrs0 mods is_slider_acc).aim = 0 ∧
    (empty_map_eval attrs0 mods is_slider_acc).jump = 0 ∧
    (empty_map_eval attrs0 mods is_slider_acc).flow = 0 ∧
    (empty_map_eval attrs0 mods is_slider_acc).precision = 0 ∧
    (empty_map_eval attrs0 mods is_slider_acc).speed = 0 ∧
    (empty_map_eval attrs0 mods is_slider_acc).stamina = 0 ∧
    (empty_map_eval attrs0 mods is_slider_acc).stars = 0 ∧
    (empty_map_eval attrs0 mods is_slider_acc).accuracy = 1 ∧
    (empty_map_eval attrs0 mods is_slider_acc).n_objects = 0 ∧
    (∀ (state : OsuScoreState) (beta_inverse_cdf : ℝ → ℝ → Option ℝ)
        (normal_inverse_cdf : ℝ → Option ℝ) (classic : Bool),
      state.total_hits = 0 →
      (OsuPerformanceCalculator.calculate beta_inverse_cdf normal_inverse_cdf
        (empty_map_eval attrs0 mods is_slider_acc) mods state classic).pp = 0 ∧
      (OsuPerformanceCalculator.calculate beta_inverse_cdf normal_inverse_cdf
        (empty_map_eval attrs0 mods is_slider_acc) mods state classic).pp_aim = 0 ∧
      (OsuPerformanceCalculator.calculate beta_inverse_cdf normal_inverse_cdf
        (empty_map_eval attrs0 mods is_slider_acc) mods state classic).pp_jump_aim = 0 ∧
      (OsuPerformanceCalculator.calculate beta_inverse_cdf normal_inverse_cdf
        (empty_map_eval attrs0 mods is_slider_acc) mods state classic).pp_flow_aim = 0 ∧
      (OsuPerformanceCalculator.calculate beta_inverse_cdf normal_inverse_cdf
        (empty_map_eval attrs0 mods is_slider_acc) mods state classic).pp_precision = 0 ∧
      (OsuPerformanceCalculator.calculate beta_inverse_cdf normal_inverse_cdf
        (empty_map_eval attrs0 mods is_slider_acc) mods state classic).pp_speed = 0 ∧
      (OsuPerformanceCalculator.calculate beta_inverse_cdf normal_inverse_cdf
        (empty_map_eval attrs0 mods is_slider_acc) mods state classic).pp_stamina = 0 ∧
      (OsuPerformanceCalculator.calculate beta_inverse_cdf normal_inverse_cdf
        (empty_map_eval attrs0 mods is_slider_acc) mods state classic).pp_acc = 0) := by
  have hv : difficulty_value_old strain_skill_empty_peaks DECAY_WEIGHT = 0 :=
    difficulty_value_old_empty _
  have hr : (RhythmComplexity.new is_slider_acc).cloned_difficulty_value = 1 :=
    rhythm_new_value _
  unfold empty_map_eval
  rw [hv, hr]
  refine ⟨?_, ?_, ?_, ?_, ?_, ?_, ?_, ?_, ?_, ?_⟩
  · simp only [DifficultyValues.eval]
    split_ifs <;> norm_num [Real.zero_rpow]
  · simp [DifficultyValues.eval]
  · simp [DifficultyValues.eval]
  · simp [DifficultyValues.eval]
  · simp only [DifficultyValues.eval]
    split_ifs <;> norm_num [Real.zero_rpow]
  · simp [DifficultyValues.eval]
  · simp only [DifficultyValues.eval]
    split_ifs <;> norm_num [Real.zero_rpow]
  · simp [DifficultyValues.eval]
  · simp [OsuDifficultyAttributes.n_objects, DifficultyValues.eval, hc, hs, hp]
  · intro state beta_inverse_cdf normal_inverse_cdf classic h
    simp [OsuPerformanceCalculator.calculate, h]

/-- Claim C1 counterexample: on the empty map the accuracy rating equals 1,
not 0 as the claim demands. -/
theorem claim_C1_counterexample :
    (empty_map_eval empty_map_attrs no_mods true).accuracy = 1 ∧ (1 : ℝ) ≠ 0 := by
  constructor
  · unfold empty_map_eval
    rw [rhythm_new_value]
    simp [DifficultyValues.eval]
  · norm_num

/-- Claim C1 witness: on the concrete empty fixture the star rating is 0 and
the performance calculation on the all-zero score state gives `pp = 0`. -/
theorem claim_C1_witness :
    (empty_map_eval empty_map_attrs no_mods true).stars = 0 ∧
    (OsuPerformanceCalculator.calculate beta_fail normal_fail
      (empty_map_eval empty_map_attrs no_mods true) no_mods zero_state false).pp = 0 := by
  obtain ⟨-, -, -, -, -, -, hstars, -, -, hperf⟩ :=
    claim_C1_amended empty_map_attrs no_mods true rfl rfl rfl
  exact ⟨hstars, (hperf zero_state beta_fail normal_fail false rfl).1⟩

/-! ## Claim C9: the no-slider path -/

/-- An Aim pass over objects none of which is a slider records no slider
strains. -/
theorem aim_process_objects_no_sliders (objects : List (Bool × ℝ × ℝ))
    (h : ∀ o ∈ objects, o.1 = false) :
    (Aim.process_objects objects).slider_strains = [] := by
  unfold Aim.process_objects
  suffices h2 : ∀ s : AimPassState, (∀ o ∈ objects, o.1 = false) →
      s.slider_strains = [] →
      (objects.foldl (fun s o => Aim.strain_value_at s o.1 o.2.1 o.2.2) s).slider_strains
        = [] by
    exact h2 ⟨0, []⟩ h rfl
  induction objects with
  | nil =>
    intro s _ hs
    simpa using hs
  | cons a l ih =>
    intro s hall hs
    simp only [List.foldl_cons]
    apply ih
    · intro o ho
      exact hall o (List.mem_cons_of_mem _ ho)
    · intro o ho
      exact hall o (List.mem_cons_of_mem _ ho)
    · have ha := hall a (List.mem_cons_self a l)
      simp [Aim.strain_value_at, ha, hs]

/-- Claim C9 (confirmed): on a map with zero sliders the Aim pass yields
`difficult_sliders = 0`, and `using_classic_slider_acc` makes no difference
to the resulting `effective_miss_count`. -/
theorem claim_C9 (objects : List (Bool × ℝ × ℝ)) (hobj : ∀ o ∈ objects, o.1 = false)
    (attrs : OsuDifficultyAttributes) (hsl : attrs.n_sliders = 0)
    (mods : GameMods) (state : OsuScoreState)
    (beta_inverse_cdf : ℝ → ℝ → Option ℝ) (normal_inverse_cdf : ℝ → Option ℝ) :
    Aim.get_difficult_sliders (Aim.process_objects objects) = 0 ∧
    (OsuPerformanceCalculator.calculate beta_inverse_cdf normal_inverse_cdf attrs
      mods state true).effective_miss_count
      = (OsuPerformanceCalculator.calculate beta_inverse_cdf normal_inverse_cdf attrs
        mods state false).effective_miss_count := by
  constructor
  · have hss := aim_process_objects_no_sliders objects hobj
    unfold Aim.get_difficult_sliders
    rw [if_pos hss]
  · by_cases h0 : state.total_hits = 0
    · simp [OsuPerformanceCalculator.calculate, h0]
    · have hcemc : OsuPerformanceCalculator.calculate_effective_miss_count attrs
          state.max_combo state.misses (state.total_hits - state.n300)
          = (state.misses : ℝ) := by
        unfold OsuPerformanceCalculator.calculate_effective_miss_count
        rw [if_neg (by simp [hsl])]
        dsimp only
        rw [min_eq_left (by positivity), max_eq_left (by positivity)]
      simp only [OsuPerformanceCalculator.calculate]
      rw [if_neg h0, if_neg h0]
      simp only [Bool.not_true, Bool.not_false, Bool.false_eq_true, Bool.true_and,
        Bool.false_and, if_true, if_false, ENABLE_EFFECTIVE_MISS_COUNT,
        Bool.and_self, eq_self_iff_true, hsl, add_zero, hcemc, max_self]

/-- Claim C9 witness: empty object list, sliderless attributes, a one-300
score — `difficult_sliders = 0` and the classic flag leaves the effective
miss count unchanged. -/
theorem claim_C9_witness :
    Aim.get_difficult_sliders (Aim.process_objects []) = 0 ∧
    (OsuPerformanceCalculator.calculate beta_fail normal_fail empty_map_attrs
      no_mods one_circle_state true).effective_miss_count
      = (OsuPerformanceCalculator.calculate beta_fail normal_fail empty_map_attrs
        no_mods one_circle_state false).effective_miss_count :=
  claim_C9 [] (by simp) empty_map_attrs rfl no_mods one_circle_state
    beta_fail normal_fail

/-! ## Claim C3: invariants established by `run` -/

theorem rescale_low_strain_time_ge (v m t thr : ℝ) (hm : 0 < m) (hv : m ≤ v)
    (ht : t ≤ thr) : t ≤ rescale_low_strain_time v m t thr := by
  unfold rescale_low_strain_time lerp
  split_ifs with h
  · have h1 : 0 ≤ (v - m) / m := div_nonneg (by linarith) hm.le
    nlinarith [mul_nonneg (sub_nonneg.mpr ht) h1]
  · linarith

theorem calculate_speed_flow_bounds (stream_bpm : ℝ) :
    0 ≤ calculate_speed_flow stream_bpm ∧ calculate_speed_flow stream_bpm ≤ 1 :=
  ⟨transition_to_true_nonneg _ _ _, transition_to_true_le_one _ _ _⟩

theorem calculate_distance_flow_bounds (stream_bpm jump_dist asf : ℝ) :
    0 ≤ calculate_distance_flow stream_bpm jump_dist asf ∧
    calculate_distance_flow stream_bpm jump_dist asf ≤ 1 :=
  ⟨transition_to_false_nonneg _ _ _, transition_to_false_le_one _ _ _⟩

theorem calculate_extended_distance_flow_bounds (stream_bpm jump_dist : ℝ) :
    0 ≤ calculate_extended_distance_flow stream_bpm jump_dist ∧
    calculate_extended_distance_flow stream_bpm jump_dist ≤ 1 :=
  ⟨transition_to_false_nonneg _ _ _, transition_to_false_le_one _ _ _⟩

theorem calculate_irregular_flow_bounds (strain_time stream_bpm jump_dist : ℝ)
    (last : OsuDifficultyObject) (ll : Option OsuDifficultyObject)
    (hlast : 0 ≤ last.base_flow ∧ last.base_flow ≤ 1)
    (hll : ∀ o ∈ ll, 0 ≤ o.base_flow ∧ o.base_flow ≤ 1) :
    0 ≤ calculate_irregular_flow strain_time stream_bpm jump_dist last ll ∧
    calculate_irregular_flow strain_time stream_bpm jump_dist last ll ≤ 1 := by
  obtain ⟨he0, he1⟩ := calculate_extended_distance_flow_bounds stream_bpm jump_dist
  have hr1 : 0 ≤ (if is_roughly_equal strain_time last.strain_time then
        calculate_extended_distance_flow stream_bpm jump_dist * last.base_flow
      else 0) ∧
      (if is_roughly_equal strain_time last.strain_time then
        calculate_extended_distance_flow stream_bpm jump_dist * last.base_flow
      else 0) ≤ 1 := by
    split_ifs
    · exact ⟨mul_nonneg he0 hlast.1, mul_le_one₀ he1 hlast.1 hlast.2⟩
    · norm_num
  unfold calculate_irregular_flow
  cases ll with
  | none => exact hr1
  | some o =>
    have ho := hll o rfl
    dsimp only
    split_ifs with h1 h2
    · exact ⟨mul_nonneg (mul_nonneg he0 hlast.1) ho.1,
        mul_le_one₀ (mul_le_one₀ he1 hlast.1 hlast.2) ho.1 ho.2⟩
    · constructor <;> norm_num
    · constructor <;> norm_num

theorem set_flow_values_bounds (strain_time stream_bpm jump_dist : ℝ)
    (angle : Option ℝ) (lastO llO : Option OsuDifficultyObject)
    (hlast : ∀ o ∈ lastO, 0 ≤ o.base_flow ∧ o.base_flow ≤ 1)
    (hll : ∀ o ∈ llO, 0 ≤ o.base_flow ∧ o.base_flow ≤ 1) :
    0 ≤ (set_flow_values strain_time stream_bpm jump_dist angle lastO llO).base_flow ∧
    (set_flow_values strain_time stream_bpm jump_dist angle lastO llO).base_flow ≤ 1 ∧
    0 ≤ (set_flow_values strain_time stream_bpm jump_dist angle lastO llO).flow ∧
    (set_flow_values strain_time stream_bpm jump_dist angle lastO llO).flow ≤ 1 := by
  obtain ⟨hs0, hs1⟩ := calculate_speed_flow_bounds stream_bpm
  unfold set_flow_values
  cases lastO with
  | none =>
    dsimp only
    obtain ⟨hd0, hd1⟩ := calculate_distance_flow_bounds stream_bpm jump_dist 1
    exact ⟨mul_nonneg hs0 hd0, mul_le_one₀ hs1 hd0 hd1,
      mul_nonneg hs0 hd0, mul_le_one₀ hs1 hd0 hd1⟩
  | some last =>
    have hlast2 := hlast last rfl
    have hirr := calculate_irregular_flow_bounds strain_time stream_bpm jump_dist
      last llO hlast2 hll
    dsimp only
    obtain ⟨hda0, hda1⟩ := calculate_distance_flow_bounds stream_bpm jump_dist
      (calculate_angle_scaling_factor angle last)
    obtain ⟨hd10, hd11⟩ := calculate_distance_flow_bounds stream_bpm jump_dist 1
    have hb2 : 0 ≤ (if is_roughly_equal strain_time last.strain_time then
          calculate_speed_flow stream_bpm * calculate_distance_flow stream_bpm
            jump_dist (calculate_angle_scaling_factor angle last)
        else if is_ratio_equal_less 0.667 strain_time last.strain_time then
          calculate_speed_flow stream_bpm * calculate_distance_flow stream_bpm
            jump_dist 1
        else 0) ∧
        (if is_roughly_equal strain_time last.strain_time then
          calculate_speed_flow stream_bpm * calculate_distance_flow stream_bpm
            jump_dist (calculate_angle_scaling_factor angle last)
        else if is_ratio_equal_less 0.667 strain_time last.strain_time then
          calculate_speed_flow stream_bpm * calculate_distance_flow stream_bpm
            jump_dist 1
        else 0) ≤ 1 := by
      split_ifs
      · exact ⟨mul_nonneg hs0 hda0, mul_le_one₀ hs1 hda0 hda1⟩
      · exact ⟨mul_nonneg hs0 hd10, mul_le_one₀ hs1 hd10 hd11⟩
      · norm_num
    exact ⟨hb2.1, hb2.2, le_trans hb2.1 (le_max_left _ _), max_le hb2.2 hirr.2⟩

/-- Claim C3 (corrected): after `run` (with `clock_rate > 0` and
predecessor difficulty objects whose `base_flow` lies in `[0, 1]`, as `run`
itself guarantees): `delta_time > 0` holds only when the current object
starts strictly after the previous one (it is `0` for simultaneous
objects), `strain_time ≥ 30`, `last_two_strain_time ≥ 60` or infinite
(`none`), `gap_time ≥ 30`, and both `base_flow` and `flow` lie in
`[0, 1]`. -/
theorem claim_C3_amended (curr : OsuObject) (idx : ℕ) (last_object : OsuObject)
    (last_last_object : Option OsuObject)
    (last_diff_object last_last_diff_object : Option OsuDifficultyObject)
    (clock_rate time_preempt factor : ℝ) (hcr : 0 < clock_rate)
    (hlast : ∀ o ∈ last_diff_object, 0 ≤ o.base_flow ∧ o.base_flow ≤ 1)
    (hll : ∀ o ∈ last_last_diff_object, 0 ≤ o.base_flow ∧ o.base_flow ≤ 1) :
    (last_object.start_time < curr.start_time →
      0 < (run curr idx last_object last_last_object last_diff_object
        last_last_diff_object clock_rate time_preempt factor).delta_time) ∧
    30 ≤ (run curr idx last_object last_last_object last_diff_object
      last_last_diff_object clock_rate time_preempt factor).strain_time ∧
    (∀ v ∈ (run curr idx last_object last_last_object last_diff_object
      last_last_diff_object clock_rate time_preempt factor).last_two_strain_time,
      60 ≤ v) ∧
    30 ≤ (run curr idx last_object last_last_object last_diff_object
      last_last_diff_object clock_rate time_preempt factor).gap_time ∧
    0 ≤ (run curr idx last_object last_last_object last_diff_object
      last_last_diff_object clock_rate time_preempt factor).base_flow ∧
    (run curr idx last_object last_last_object last_diff_object
      last_last_diff_object clock_rate time_preempt factor).base_flow ≤ 1 ∧
    0 ≤ (run curr idx last_object last_last_object last_diff_object
      last_last_diff_object clock_rate time_preempt factor).flow ∧
    (run curr idx last_object last_last_object last_diff_object
      last_last_diff_object clock_rate time_preempt factor).flow ≤ 1 := by
  refine ⟨?_, ?_, ?_, ?_, ?_, ?_, ?_, ?_⟩
  · intro hlt
    simp only [run]
    exact div_pos (sub_pos.mpr hlt) hcr
  · simp only [run, MIN_DELTA_TIME]
    exact rescale_low_strain_time_ge _ 25 30 50 (by norm_num)
      (le_max_right _ _) (by norm_num)
  · simp only [run, MIN_DELTA_TIME]
    cases last_last_object with
    | none => intro v hv; simp at hv
    | some ll =>
      intro v hv
      simp only [Option.map_some', Option.mem_def, Option.some.injEq] at hv
      subst hv
      exact rescale_low_strain_time_ge _ 50 60 100 (by norm_num)
        (by
          have := le_max_right ((curr.start_time - ll.start_time) / clock_rate)
            ((25 : ℝ) * 2)
          linarith)
        (by norm_num)
  · simp only [run, MIN_DELTA_TIME]
    split_ifs with h
    · exact rescale_low_strain_time_ge _ 25 30 50 (by norm_num)
        (le_max_right _ _) (by norm_num)
    · exact rescale_low_strain_time_ge _ 25 30 50 (by norm_num)
        (le_max_right _ _) (by norm_num)
  · simp only [run]
    exact (set_flow_values_bounds _ _ _ _ _ _ hlast hll).1
  · simp only [run]
    exact (set_flow_values_bounds _ _ _ _ _ _ hlast hll).2.1
  · simp only [run]
    exact (set_flow_values_bounds _ _ _ _ _ _ hlast hll).2.2.1
  · simp only [run]
    exact (set_flow_values_bounds _ _ _ _ _ _ hlast hll).2.2.2

/-- Claim C3 counterexample: two circles with the same start time (legal in
a beatmap) and `clock_rate = 1` give `delta_time = 0`, refuting
`delta_time > 0` for arbitrary predecessor configurations. -/
theorem claim_C3_counterexample :
    ¬ (0 < (run (circle_fixture 0 0 100) 0 (circle_fixture 0 0 100) none none none
      1 450 1).delta_time) := by
  have h : (run (circle_fixture 0 0 100) 0 (circle_fixture 0 0 100) none none none
      1 450 1).delta_time = 0 := by
    norm_num [run, circle_fixture]
  rw [h]
  norm_num

/-- Claim C3 witness: two circles 200 ms apart at clock rate 1 — the delta
time is positive and the strain time at least 30. -/
theorem claim_C3_witness :
    0 < (run (circle_fixture 0 0 1000) 0 (circle_fixture 0 0 800) none none none
      1 450 1).delta_time ∧
    30 ≤ (run (circle_fixture 0 0 1000) 0 (circle_fixture 0 0 800) none none none
      1 450 1).strain_time := by
  have h := claim_C3_amended (circle_fixture 0 0 1000) 0 (circle_fixture 0 0 800)
    none none none 1 450 1 (by norm_num) (by simp) (by simp)
  refine ⟨h.1 ?_, h.2.1⟩
  show (circle_fixture 0 0 800).start_time < (circle_fixture 0 0 1000).start_time
  norm_num [circle_fixture]

/-! ## Claim C10: rhythm-complexity value and accuracy rating are at least 1 -/

theorem rhythm_doubles_fold_nonneg (n : ℤ) (l : List ℤ) (hl : ∀ d ∈ l, d < n)
    (b : ℝ) (hb : 0 ≤ b) :
    0 ≤ l.foldl
      (fun b prev_double =>
        if prev_double > 0 then b * (1 - 0.5 * (0.9 : ℝ) ^ ((n - prev_double : ℤ) : ℝ))
        else 5)
      b := by
  induction l generalizing b with
  | nil => simpa
  | cons a t ih =>
    have ha := hl a (List.mem_cons_self a t)
    have ht : ∀ d ∈ t, d < n := fun d hd => hl d (List.mem_cons_of_mem _ hd)
    simp only [List.foldl_cons]
    apply ih ht
    split_ifs with h
    · have hm : (1 : ℝ) ≤ ((n - a : ℤ) : ℝ) := by
        have h1 : (1 : ℤ) ≤ n - a := by omega
        exact_mod_cast h1
    
      have hpow : (0.9 : ℝ) ^ ((n - a : ℤ) : ℝ) ≤ (0.9 : ℝ) ^ (1 : ℝ) :=
        Real.rpow_le_rpow_of_exponent_ge (by norm_num) (by norm_num) hm
      have hpow1 : (0.9 : ℝ) ^ (1 : ℝ) = 0.9 := Real.rpow_one _
      have hfac : 0 ≤ 1 - 0.5 * (0.9 : ℝ) ^ ((n - a : ℤ) : ℝ) := by
        nlinarith [hpow, hpow1]
      exact mul_nonneg hb hfac
    · norm_num

theorem calc_slider_end_flow_nonneg (curr : OsuDifficultyObject) :
    0 ≤ calc_slider_end_flow curr := by
  unfold calc_slider_end_flow
  exact mul_nonneg (transition_to_true_nonneg _ _ _) (transition_to_false_nonneg _ _ _)

theorem calc_slider_to_circle_spec (s : RhythmComplexity) (curr : OsuDifficultyObject) :
    0 ≤ (s.calc_slider_to_circle_rhythm_bonus curr).1 ∧
    (s.calc_slider_to_circle_rhythm_bonus curr).2.difficulty_total = s.difficulty_total ∧
    (s.calc_slider_to_circle_rhythm_bonus curr).2.difficulty_total_slider_acc
      = s.difficulty_total_slider_acc ∧
    (s.calc_slider_to_circle_rhythm_bonus curr).2.hit_circle_count = s.hit_circle_count ∧
    (s.calc_slider_to_circle_rhythm_bonus curr).2.accuracy_object_count
      = s.accuracy_object_count ∧
    (s.calc_slider_to_circle_rhythm_bonus curr).2.note_index = s.note_index ∧
    (s.calc_slider_to_circle_rhythm_bonus curr).2.prev_doubles = s.prev_doubles := by
  unfold RhythmComplexity.calc_slider_to_circle_rhythm_bonus
  dsimp only
  refine ⟨?_, ?_, ?_, ?_, ?_, ?_, ?_⟩ <;> split_ifs <;>
    first
      | rfl
      | exact mul_nonneg (by norm_num) (calc_slider_end_flow_nonneg curr)

theorem calc_circle_to_circle_spec (s : RhythmComplexity)
    (curr prev : OsuDifficultyObject) (hn : 0 ≤ s.note_index)
    (hpd : ∀ d ∈ s.prev_doubles, d < s.note_index) (hflow : 0 ≤ curr.flow) :
    0 ≤ (s.calc_circle_to_circle_rhythm_bonus curr prev).1 ∧
    (s.calc_circle_to_circle_rhythm_bonus curr prev).2.difficulty_total
      = s.difficulty_total ∧
    (s.calc_circle_to_circle_rhythm_bonus curr prev).2.difficulty_total_slider_acc
      = s.difficulty_total_slider_acc ∧
    (s.calc_circle_to_circle_rhythm_bonus curr prev).2.hit_circle_count
      = s.hit_circle_count ∧
    (s.calc_circle_to_circle_rhythm_bonus curr prev).2.accuracy_object_count
      = s.accuracy_object_count ∧
    (s.calc_circle_to_circle_rhythm_bonus curr prev).2.note_index = s.note_index ∧
    (∀ d ∈ (s.calc_circle_to_circle_rhythm_bonus curr prev).2.prev_doubles,
      d ≤ s.note_index) := by
  unfold RhythmComplexity.calc_circle_to_circle_rhythm_bonus
  dsimp only
  refine ⟨?_, ?_, ?_, ?_, ?_, ?_, ?_⟩
  · split_ifs <;> dsimp only <;>
      first
        | exact rhythm_doubles_fold_nonneg s.note_index _
            (fun d hd => hpd d (List.mem_of_mem_drop hd)) 5 (by norm_num)
        | linarith
  · split_ifs <;> rfl
  · split_ifs <;> rfl
  · split_ifs <;> rfl
  · split_ifs <;> rfl
  · split_ifs <;> rfl
  · intro d hd
    split_ifs at hd <;>
      first
        | exact (hpd d hd).le
        | (rcases List.mem_append.mp hd with h | h
           · exact (hpd d h).le
           · simp only [List.mem_singleton] at h
             omega)

theorem calc_rhythm_bonus_spec (s : RhythmComplexity) (curr : OsuDifficultyObject)
    (prev : Option OsuDifficultyObject) (hn : 0 ≤ s.note_index)
    (hpd : ∀ d ∈ s.prev_doubles, d < s.note_index) (hflow : 0 ≤ curr.flow) :
    0 ≤ (s.calc_rhythm_bonus curr prev).1 ∧
    (s.calc_rhythm_bonus curr prev).2.difficulty_total = s.difficulty_total ∧
    (s.calc_rhythm_bonus curr prev).2.difficulty_total_slider_acc
      = s.difficulty_total_slider_acc ∧
    (s.calc_rhythm_bonus curr prev).2.hit_circle_count = s.hit_circle_count ∧
    (s.calc_rhythm_bonus curr prev).2.accuracy_object_count = s.accuracy_object_count ∧
    (s.calc_rhythm_bonus curr prev).2.note_index = s.note_index ∧
    (∀ d ∈ (s.calc_rhythm_bonus curr prev).2.prev_doubles, d ≤ s.note_index) := by
  have hb0 : 0 ≤ 0.05 * curr.flow := by linarith
  unfold RhythmComplexity.calc_rhythm_bonus
  dsimp only
  by_cases h0 : curr.idx = 0
  · rw [if_pos h0]
    exact ⟨hb0, rfl, rfl, rfl, rfl, rfl, fun d hd => (hpd d hd).le⟩
  · rw [if_neg h0]
    cases prev with
    | none => exact ⟨hb0, rfl, rfl, rfl, rfl, rfl, fun d hd => (hpd d hd).le⟩
    | some p =>
      cases hk : p.base.kind with
      | circle =>
        obtain ⟨hb, e1, e2, e3, e4, e5, e6⟩ := calc_circle_to_circle_spec s curr p hn hpd hflow
        simp only [hk]
        exact ⟨add_nonneg hb0 hb, e1, e2, e3, e4, e5, e6⟩
      | slider et ltd lep =>
        obtain ⟨hb, e1, e2, e3, e4, e5, e6⟩ := calc_slider_to_circle_spec s curr
        simp only [hk]
        refine ⟨add_nonneg hb0 hb, e1, e2, e3, e4, e5, ?_⟩
        rw [e6]
        exact fun d hd => (hpd d hd).le
      | spinner et =>
        dsimp only
        rw [hk]
        exact ⟨hb0, rfl, rfl, rfl, rfl, rfl, fun d hd => (hpd d hd).le⟩

theorem rhythm_process_inv (s : RhythmComplexity) (curr : OsuDifficultyObject)
    (prev : Option OsuDifficultyObject) (hinv : s.Inv) (hflow : 0 ≤ curr.flow) :
    (s.process curr prev).Inv := by
  obtain ⟨hd, hda, hc, ha, hn, hpd⟩ := hinv
  unfold RhythmComplexity.process
  dsimp only
  by_cases hcirc : curr.base.is_circle = true
  · rw [if_pos hcirc]
    obtain ⟨hb, e1, e2, e3, e4, e5, e6⟩ := calc_rhythm_bonus_spec
      { s with flow_total := s.flow_total + curr.flow,
               jump_total := s.jump_total + curr.jump_dist } curr prev hn hpd hflow
    refine ⟨?_, ?_, ?_, ?_, ?_, ?_⟩
    · rw [e1]; exact add_nonneg hd hb
    · rw [e2]; exact add_nonneg hda hb
    · rw [e3]; exact add_nonneg hc (by norm_num)
    · rw [e4]; exact add_nonneg ha (by norm_num)
    · rw [e5]; exact add_nonneg hn (by norm_num)
    · intro d hdm
      have h6 := e6 d hdm
      rw [e5]
      exact lt_of_le_of_lt h6 (lt_add_one _)
  · rw [if_neg hcirc]
    split_ifs with h2
    · obtain ⟨hb, e1, e2, e3, e4, e5, e6⟩ := calc_rhythm_bonus_spec
        { s with flow_total := s.flow_total + curr.flow,
                 jump_total := s.jump_total + curr.jump_dist } curr prev hn hpd hflow
      refine ⟨?_, ?_, ?_, ?_, ?_, ?_⟩
      · rw [e1]; exact hd
      · rw [e2]; exact add_nonneg hda hb
      · rw [e3]; exact hc
      · rw [e4]; exact add_nonneg ha (by norm_num)
      · rw [e5]; exact add_nonneg hn (by norm_num)
      · intro d hdm
        have h6 := e6 d hdm
        rw [e5]
        exact lt_of_le_of_lt h6 (lt_add_one _)
    · refine ⟨hd, hda, hc, ha, add_nonneg hn (by norm_num), ?_⟩
      intro d hdm
      exact lt_trans (hpd d hdm) (lt_add_one _)

theorem rhythm_process_list_inv (objects : List OsuDifficultyObject) :
    ∀ (s : RhythmComplexity) (prev : Option OsuDifficultyObject), s.Inv →
      (∀ o ∈ objects, 0 ≤ o.flow) → (s.process_list prev objects).Inv := by
  induction objects with
  | nil =>
    intro s prev h _
    simpa [RhythmComplexity.process_list] using h
  | cons a t ih =>
    intro s prev hinv hf
    simp only [RhythmComplexity.process_list]
    exact ih _ _ (rhythm_process_inv s a prev hinv (hf a (List.mem_cons_self a t)))
      (fun o ho => hf o (List.mem_cons_of_mem _ ho))

theorem calc_difficulty_value_for_ge_one (d : ℝ) (n : ℤ) (hd : 0 ≤ d) (hn : 0 ≤ n) :
    1 ≤ calc_difficulty_value_for d n := by
  unfold calc_difficulty_value_for
  split_ifs with h
  · exact le_rfl
  · dsimp only
    have hn2 : 0 < n := lt_of_le_of_ne hn (Ne.symm h)
    have hnr : (0 : ℝ) < (n : ℝ) := by exact_mod_cast hn2
    have ht : 0 ≤ Real.tanh ((n : ℝ) / 50) := by
      rw [Real.tanh_eq_sinh_div_cosh]
      exact div_nonneg (Real.sinh_nonneg_iff.mpr (by positivity)) (Real.cosh_pos _).le
    have hm : 0 ≤ d / (n : ℝ) * Real.tanh ((n : ℝ) / 50) :=
      mul_nonneg (div_nonneg hd hnr.le) ht
    linarith

theorem rhythm_cloned_ge_one (s : RhythmComplexity) (hinv : s.Inv) :
    1 ≤ s.cloned_difficulty_value := by
  obtain ⟨hd, hda, hc, ha, _, _⟩ := hinv
  exact le_max_of_le_left (calc_difficulty_value_for_ge_one _ _ hd hc)

/-- Claim C10 (confirmed): every per-object rhythm bonus is non-negative
(under the pass invariant), the aggregation returns 1 on an empty count,
the rhythm-complexity difficulty value of any processed object sequence
(with flows `≥ 0`, as `run` guarantees) is at least 1, and hence the
accuracy rating produced by `DifficultyValues.eval` is at least 1 — in
particular never 0. -/
theorem claim_C10 (is_slider_acc : Bool) (objects : List OsuDifficultyObject)
    (hflow : ∀ o ∈ objects, 0 ≤ o.flow) :
    (∀ (s : RhythmComplexity) (curr : OsuDifficultyObject)
        (prev : Option OsuDifficultyObject), s.Inv → 0 ≤ curr.flow →
      0 ≤ (s.calc_rhythm_bonus curr prev).1) ∧
    (∀ d : ℝ, calc_difficulty_value_for d 0 = 1) ∧
    1 ≤ ((RhythmComplexity.new is_slider_acc).process_list none
      objects).cloned_difficulty_value ∧
    (∀ (attrs0 : OsuDifficultyAttributes) (mods : GameMods)
        (v1 v2 v3 v4 v5 v6 e1 e2 e3 e4 e5 e6 : ℝ),
      1 ≤ (DifficultyValues.eval attrs0 mods v1 v2 v3 v4 v5 v6
        ((RhythmComplexity.new is_slider_acc).process_list none
          objects).cloned_difficulty_value
        e1 e2 e3 e4 e5 e6).accuracy) := by
  have hnew : (RhythmComplexity.new is_slider_acc).Inv :=
    ⟨le_rfl, le_rfl, le_rfl, le_rfl, le_rfl, by simp [RhythmComplexity.new]⟩
  have hfin := rhythm_process_list_inv objects (RhythmComplexity.new is_slider_acc)
    none hnew hflow
  have hval := rhythm_cloned_ge_one _ hfin
  refine ⟨?_, ?_, hval, ?_⟩
  · intro s curr prev hinv hf
    exact (calc_rhythm_bonus_spec s curr prev hinv.2.2.2.2.1 hinv.2.2.2.2.2 hf).1
  · intro d
    unfold calc_difficulty_value_for
    rw [if_pos (rfl : (0 : ℤ) = 0)]
  · intro attrs0 mods v1 v2 v3 v4 v5 v6 e1 e2 e3 e4 e5 e6
    have hacc : (DifficultyValues.eval attrs0 mods v1 v2 v3 v4 v5 v6
        ((RhythmComplexity.new is_slider_acc).process_list none
          objects).cloned_difficulty_value
        e1 e2 e3 e4 e5 e6).accuracy
        = Real.sqrt ((RhythmComplexity.new is_slider_acc).process_list none
          objects).cloned_difficulty_value := by
      simp [DifficultyValues.eval]
    rw [hacc]
    calc (1 : ℝ) = Real.sqrt 1 := Real.sqrt_one.symm
      _ ≤ _ := Real.sqrt_le_sqrt hval

/-- Claim C10 witness: on the empty object list the rhythm-complexity value
is exactly its lower bound 1. -/
theorem claim_C10_witness :
    1 ≤ ((RhythmComplexity.new true).process_list none []).cloned_difficulty_value :=
  (claim_C10 true [] (by simp)).2.2.1
